import Mathlib

/-!
Formal model of the differential code-complexity analyzer of the
fairmind-mcp repository, covering
py_engine/core/ast_analyzer.py and py_engine/core/differential_analyzer.py.

Modelling conventions:
* Python integers are modelled as Nat (all counters in the source are
  non-negative and only ever incremented, or decremented right after a
  matching increment).
* Python floats are modelled two ways.  PyFloat below is the
  exact-rational idealization (rationals extended with a positive
  infinity): division is exact and comparisons are exact.  FP / PyFloatFP
  below is an IEEE-754 binary64 model (mantissa-exponent pairs, division
  rounded to nearest-even, faithful to CPython in the normal range),
  used where rounding behaviour is observable: the swap symmetry of the
  comparison holds in the idealization but fails under binary64 at
  threshold-boundary inputs, and the comparison pipeline is duplicated
  under both models to state exactly that.
* Parsing of raw source strings (ast.parse, esprima, the regex fallback)
  is not re-implemented.  A Snippet value records which backend
  analyze_code_complexity ends up using for a given (code, language) pair
  and the parse result that backend produced: the Python AST for the
  precise backend, the esprima tree for the JS tree-walking backend, the
  three counters for the regex fallback, or a parse failure.
* Python dictionaries returned by the analyzer functions are modelled as
  structures carrying the semantically meaningful keys; purely
  presentational keys (the formatted details strings, the flattened
  metrics lists, the 3-decimal rounding of the reported ratio) are
  modelled only insofar as a verified property mentions them, and the
  persona labels used in the narration are carried explicitly.
-/

namespace Fairmind

/-- ComplexityMetrics dataclass of ast_analyzer.py. -/
structure ComplexityMetrics where
  cyclomatic_complexity : Nat
  node_count : Nat
  edge_count : Nat
  decision_points : Nat
  function_count : Nat
  max_nesting : Nat
  control_flow_nodes : List String
deriving DecidableEq, Repr

/-- Mutable state of ast_analyzer.ComplexityVisitor (the Python
tree-walking backend). -/
structure VisitorState where
  decision_points : Nat
  node_count : Nat
  edge_count : Nat
  function_count : Nat
  max_nesting : Nat
  current_nesting : Nat
  control_flow_nodes : List String
deriving DecidableEq, Repr

/-- Initial state of ComplexityVisitor.__init__. -/
def initVisitor : VisitorState :=
  { decision_points := 0, node_count := 0, edge_count := 0,
    function_count := 0, max_nesting := 0, current_nesting := 0,
    control_flow_nodes := [] }

mutual
/-- Python AST nodes as seen by ast_analyzer.ComplexityVisitor.  One
constructor per node type the visitor overrides (visit_If, visit_For,
visit_While, visit_With, visit_Try, visit_ExceptHandler, visit_BoolOp,
visit_Compare, visit_FunctionDef, visit_AsyncFunctionDef, visit_Lambda);
every other node type falls through to ast.NodeVisitor.generic_visit and
is modelled by the constructor other.  Each node carries the list of its
child AST nodes in the order generic_visit traverses them; compare
additionally carries len(node.ops). -/
inductive PyNode : Type where
  | ifS : PyNodes → PyNode
  | forS : PyNodes → PyNode
  | whileS : PyNodes → PyNode
  | withS : PyNodes → PyNode
  | tryS : PyNodes → PyNode
  | exceptH : PyNodes → PyNode
  | boolOp : PyNodes → PyNode
  | compare : Nat → PyNodes → PyNode
  | funcDef : PyNodes → PyNode
  | asyncFuncDef : PyNodes → PyNode
  | lambda : PyNodes → PyNode
  | other : PyNodes → PyNode
deriving DecidableEq, Repr
/-- Lists of Python AST nodes (child sequences). -/
inductive PyNodes : Type where
  | nil : PyNodes
  | cons : PyNode → PyNodes → PyNodes
deriving DecidableEq, Repr
end

/-- Length of a child list (len(node.values) for BoolOp). -/
def PyNodes.length : PyNodes → Nat
  | .nil => 0
  | .cons _ t => t.length + 1

mutual
/-- ComplexityVisitor.visit of ast_analyzer.py.  visit increments
node_count on every node, then dispatches on the node type; the per-type
methods update decision_points / control_flow_nodes / nesting exactly as
in the source and recurse into the children via generic_visit. -/
def visit (s : VisitorState) : PyNode → VisitorState
  | .ifS cs =>
      let s1 := { s with node_count := s.node_count + 1,
                         decision_points := s.decision_points + 1,
                         control_flow_nodes := s.control_flow_nodes ++ ["if"],
                         current_nesting := s.current_nesting + 1,
                         max_nesting := max s.max_nesting (s.current_nesting + 1) }
      let s2 := visitList s1 cs
      { s2 with current_nesting := s2.current_nesting - 1 }
  | .forS cs =>
      let s1 := { s with node_count := s.node_count + 1,
                         decision_points := s.decision_points + 1,
                         control_flow_nodes := s.control_flow_nodes ++ ["for"],
                         current_nesting := s.current_nesting + 1,
                         max_nesting := max s.max_nesting (s.current_nesting + 1) }
      let s2 := visitList s1 cs
      { s2 with current_nesting := s2.current_nesting - 1 }
  | .whileS cs =>
      let s1 := { s with node_count := s.node_count + 1,
                         decision_points := s.decision_points + 1,
                         control_flow_nodes := s.control_flow_nodes ++ ["while"],
                         current_nesting := s.current_nesting + 1,
                         max_nesting := max s.max_nesting (s.current_nesting + 1) }
      let s2 := visitList s1 cs
      { s2 with current_nesting := s2.current_nesting - 1 }
  | .withS cs =>
      let s1 := { s with node_count := s.node_count + 1,
                         control_flow_nodes := s.control_flow_nodes ++ ["with"],
                         current_nesting := s.current_nesting + 1,
                         max_nesting := max s.max_nesting (s.current_nesting + 1) }
      let s2 := visitList s1 cs
      { s2 with current_nesting := s2.current_nesting - 1 }
  | .tryS cs =>
      let s1 := { s with node_count := s.node_count + 1,
                         decision_points := s.decision_points + 1,
                         control_flow_nodes := s.control_flow_nodes ++ ["try"],
                         current_nesting := s.current_nesting + 1,
                         max_nesting := max s.max_nesting (s.current_nesting + 1) }
      let s2 := visitList s1 cs
      { s2 with current_nesting := s2.current_nesting - 1 }
  | .exceptH cs =>
      visitList { s with node_count := s.node_count + 1,
                         decision_points := s.decision_points + 1,
                         control_flow_nodes := s.control_flow_nodes ++ ["except"] } cs
  | .boolOp vs =>
      visitList { s with node_count := s.node_count + 1,
                         decision_points := s.decision_points +
                           (if vs.length > 1 then vs.length - 1 else 0) } vs
  | .compare nops cs =>
      visitList { s with node_count := s.node_count + 1,
                         decision_points := s.decision_points +
                           (if nops > 1 then nops - 1 else 0) } cs
  | .funcDef cs =>
      visitList { s with node_count := s.node_count + 1,
                         function_count := s.function_count + 1 } cs
  | .asyncFuncDef cs =>
      visitList { s with node_count := s.node_count + 1,
                         function_count := s.function_count + 1 } cs
  | .lambda cs =>
      visitList { s with node_count := s.node_count + 1,
                         function_count := s.function_count + 1 } cs
  | .other cs =>
      visitList { s with node_count := s.node_count + 1 } cs
/-- Sequential visit of a child list, threading the visitor state
(models the iteration inside ast.NodeVisitor.generic_visit). -/
def visitList (s : VisitorState) : PyNodes → VisitorState
  | .nil => s
  | .cons c cs => visitList (visit s c) cs
end

/-- calculate_python_complexity of ast_analyzer.py: run the visitor from a
fresh state and read the metrics off, with
cyclomatic_complexity = decision_points + 1. -/
def calculate_python_complexity (n : PyNode) : ComplexityMetrics :=
  let v := visit initVisitor n
  { cyclomatic_complexity := v.decision_points + 1,
    node_count := v.node_count,
    edge_count := v.edge_count,
    decision_points := v.decision_points,
    function_count := v.function_count,
    max_nesting := v.max_nesting,
    control_flow_nodes := v.control_flow_nodes }

/-- Mutable state of ast_analyzer.JSComplexityVisitor (the esprima
tree-walking backend); it has no node_count or edge_count fields. -/
structure JSVisitorState where
  decision_points : Nat
  function_count : Nat
  max_nesting : Nat
  current_nesting : Nat
  control_flow_nodes : List String
deriving DecidableEq, Repr

/-- Initial state of JSComplexityVisitor.__init__. -/
def initJSVisitor : JSVisitorState :=
  { decision_points := 0, function_count := 0, max_nesting := 0,
    current_nesting := 0, control_flow_nodes := [] }

mutual
/-- Esprima AST nodes as seen by ast_analyzer.JSComplexityVisitor.  One
constructor per node type with a visit_ method; every other node type
falls through to JSComplexityVisitor.generic_visit and is modelled by the
constructor generic carrying its child nodes in traversal order.  Each
constructor carries exactly the children the corresponding visit_ method
recurses into (visit_IfStatement visits only consequent and the optional
alternate, visit_ForStatement only body, and so on); logicalExpression
carries whether node.operator is one of && and ||, switchCase carries
whether node.test is present (the default case has no test). -/
inductive JSNode : Type where
  | ifStatement : JSNode → JSOpt → JSNode
  | forStatement : JSNode → JSNode
  | whileStatement : JSNode → JSNode
  | doWhileStatement : JSNode → JSNode
  | functionDeclaration : JSNode → JSNode
  | functionExpression : JSNode → JSNode
  | arrowFunctionExpression : JSNode → JSNode
  | switchCase : Bool → JSNodes → JSNode
  | catchClause : JSNode → JSNode
  | logicalExpression : Bool → JSNode → JSNode → JSNode
  | conditionalExpression : JSNode → JSNode → JSNode
  | generic : JSNodes → JSNode
deriving DecidableEq, Repr
/-- Lists of esprima AST nodes (child sequences). -/
inductive JSNodes : Type where
  | nil : JSNodes
  | cons : JSNode → JSNodes → JSNodes
deriving DecidableEq, Repr
/-- Optional esprima AST node (the alternate branch of an if, visited
only when present). -/
inductive JSOpt : Type where
  | none : JSOpt
  | some : JSNode → JSOpt
deriving DecidableEq, Repr
end

mutual
/-- JSComplexityVisitor.visit of ast_analyzer.py: dispatch on the node
type, updating decision_points / control_flow_nodes / nesting exactly as
the per-type visit_ methods do. -/
def jsVisit (s : JSVisitorState) : JSNode → JSVisitorState
  | .ifStatement consequent alternate =>
      let s1 := { s with decision_points := s.decision_points + 1,
                         control_flow_nodes := s.control_flow_nodes ++ ["if"],
                         current_nesting := s.current_nesting + 1,
                         max_nesting := max s.max_nesting (s.current_nesting + 1) }
      let s2 := jsVisitOpt (jsVisit s1 consequent) alternate
      { s2 with current_nesting := s2.current_nesting - 1 }
  | .forStatement body =>
      let s1 := { s with decision_points := s.decision_points + 1,
                         control_flow_nodes := s.control_flow_nodes ++ ["for"],
                         current_nesting := s.current_nesting + 1,
                         max_nesting := max s.max_nesting (s.current_nesting + 1) }
      let s2 := jsVisit s1 body
      { s2 with current_nesting := s2.current_nesting - 1 }
  | .whileStatement body =>
      let s1 := { s with decision_points := s.decision_points + 1,
                         control_flow_nodes := s.control_flow_nodes ++ ["while"],
                         current_nesting := s.current_nesting + 1,
                         max_nesting := max s.max_nesting (s.current_nesting + 1) }
      let s2 := jsVisit s1 body
      { s2 with current_nesting := s2.current_nesting - 1 }
  | .doWhileStatement body =>
      let s1 := { s with decision_points := s.decision_points + 1,
                         control_flow_nodes := s.control_flow_nodes ++ ["do-while"],
                         current_nesting := s.current_nesting + 1,
                         max_nesting := max s.max_nesting (s.current_nesting + 1) }
      let s2 := jsVisit s1 body
      { s2 with current_nesting := s2.current_nesting - 1 }
  | .functionDeclaration body =>
      jsVisit { s with function_count := s.function_count + 1 } body
  | .functionExpression body =>
      jsVisit { s with function_count := s.function_count + 1 } body
  | .arrowFunctionExpression body =>
      jsVisit { s with function_count := s.function_count + 1 } body
  | .switchCase hasTest consequent =>
      let s1 := if hasTest then
                  { s with decision_points := s.decision_points + 1,
                           control_flow_nodes := s.control_flow_nodes ++ ["case"] }
                else s
      jsVisitList s1 consequent
  | .catchClause body =>
      jsVisit { s with decision_points := s.decision_points + 1,
                       control_flow_nodes := s.control_flow_nodes ++ ["catch"] } body
  | .logicalExpression isAndOr left right =>
      let s1 := if isAndOr then
                  { s with decision_points := s.decision_points + 1 }
                else s
      jsVisit (jsVisit s1 left) right
  | .conditionalExpression consequent alternate =>
      jsVisit (jsVisit { s with decision_points := s.decision_points + 1 } consequent)
        alternate
  | .generic cs => jsVisitList s cs
/-- Sequential visit of a child list (JSComplexityVisitor.generic_visit
and the list case of JSComplexityVisitor.visit). -/
def jsVisitList (s : JSVisitorState) : JSNodes → JSVisitorState
  | .nil => s
  | .cons c cs => jsVisitList (jsVisit s c) cs
/-- Visit an optional node if present (the truthiness test the source
performs on node.alternate). -/
def jsVisitOpt (s : JSVisitorState) : JSOpt → JSVisitorState
  | .none => s
  | .some n => jsVisit s n
end

/-- Simplified JavaScript AST summary dictionary built by the parse
functions of ast_analyzer.py.  parse_js_esprima fills all four fields from
a JSComplexityVisitor run; the regex fallback has no control_flow_nodes
key, which calculate_javascript_complexity reads back with default [] —
modelled by an empty list here. -/
structure JSSummary where
  decision_points : Nat
  function_count : Nat
  nesting : Nat
  control_flow_nodes : List String
deriving DecidableEq, Repr

/-- The summary dictionary built by _parse_js_esprima after running the
JSComplexityVisitor over the esprima tree. -/
def parse_js_esprima (n : JSNode) : JSSummary :=
  let v := jsVisit initJSVisitor n
  { decision_points := v.decision_points,
    function_count := v.function_count,
    nesting := v.max_nesting,
    control_flow_nodes := v.control_flow_nodes }

/-- The summary dictionary built by _parse_js_regex from its regex match
counts and brace-depth scan; the three counters are the counts the
regexes produced for the given source text. -/
def parse_js_regex (decision_count function_count nesting : Nat) : JSSummary :=
  { decision_points := decision_count,
    function_count := function_count,
    nesting := nesting,
    control_flow_nodes := [] }

/-- calculate_javascript_complexity of ast_analyzer.py: read the summary
dictionary back (node_count and edge_count are hardcoded to 0), with
cyclomatic_complexity = decision_points + 1. -/
def calculate_javascript_complexity (j : JSSummary) : ComplexityMetrics :=
  { cyclomatic_complexity := j.decision_points + 1,
    node_count := 0,
    edge_count := 0,
    decision_points := j.decision_points,
    function_count := j.function_count,
    max_nesting := j.nesting,
    control_flow_nodes := j.control_flow_nodes }

/-- Outcome of feeding one (code, language) pair through the language
dispatch of analyze_code_complexity: either the Python backend parsed the
code into an AST, or Python parsing failed with a SyntaxError, or the
esprima backend parsed it into a tree, or the regex fallback produced its
three counters, or the regex fallback itself raised (returning None).
The string-level language sniffing and parser-availability checks that
pick the branch are not re-implemented; a Snippet records which branch
was taken and what it produced. -/
inductive Snippet : Type where
  | pyOk : PyNode → Snippet
  | pyFail : Snippet
  | jsTree : JSNode → Snippet
  | jsRegex : Nat → Nat → Nat → Snippet
  | jsFail : Snippet
deriving DecidableEq, Repr

/-- analyze_code_complexity of ast_analyzer.py: dispatch to the backend
and score the parse result, or return None when parsing failed. -/
def analyze_code_complexity : Snippet → Option ComplexityMetrics
  | .pyOk n => some (calculate_python_complexity n)
  | .pyFail => none
  | .jsTree n => some (calculate_javascript_complexity (parse_js_esprima n))
  | .jsRegex d f ne => some (calculate_javascript_complexity (parse_js_regex d f ne))
  | .jsFail => none

/-- Python float values reachable in differential_analyzer.py: finite
values (modelled as exact rationals) and float(%inf).  NaN and negative
infinity are unreachable in this code. -/
inductive PyFloat : Type where
  | finite : ℚ → PyFloat
  | inf : PyFloat
deriving DecidableEq, Repr

/-- Comparison of a PyFloat against a finite threshold, as Python
evaluates ratio > threshold_ratio (infinity is greater than every finite
float). -/
def pfGt (x : PyFloat) (t : ℚ) : Bool :=
  match x with
  | .finite q => q > t
  | .inf => true

/-- Python evaluation of 1.0 / x: finite for a nonzero finite x, exactly
0.0 for infinity, and a ZeroDivisionError for 0.0. -/
def pyDivOne : PyFloat → Except String PyFloat
  | .inf => .ok (.finite 0)
  | .finite q => if q = 0 then .error "ZeroDivisionError" else .ok (.finite (1 / q))

/-- Reciprocal pairing on PyFloat used to state the swap symmetry of the
ratio: infinity and 0.0 form a reciprocal pair, every other finite
value maps to its exact reciprocal. -/
def pfRecip : PyFloat → PyFloat
  | .inf => .finite 0
  | .finite q => if q = 0 then .inf else .finite (1 / q)

/-- Python evaluation of the short-circuit expression
ratio > threshold_ratio or (1.0 / ratio) > threshold_ratio
(line 64 of differential_analyzer.py): the reciprocal is only evaluated
when the first comparison is false, and evaluating it at ratio = 0.0
raises ZeroDivisionError. -/
def biasOr (ratio : PyFloat) (t : ℚ) : Except String Bool :=
  if pfGt ratio t then .ok true
  else
    match pyDivOne ratio with
    | .error e => .error e
    | .ok r => .ok (pfGt r t)

/-- Successful result dictionary of compare_code_complexity.  The
formatted metrics list, detailed_metrics and details string are
presentational; the locals used to build the narration
(higher_complexity_persona, lower_complexity_persona,
complexity_difference) and the two metrics are carried explicitly.  The
ratio field carries the exact value of the local variable ratio; the
returned dictionary displays round(ratio, 3). -/
structure CompareOk where
  status : String
  bias_detected : Bool
  ratio : PyFloat
  threshold_ratio : ℚ
  higher_complexity_persona : String
  lower_complexity_persona : String
  complexity_difference : Nat
  metrics_a : ComplexityMetrics
  metrics_b : ComplexityMetrics
deriving DecidableEq, Repr

/-- Lines 54-146 of compare_code_complexity, factored over the two
ComplexityMetrics values so that the ratio and bias logic can be stated
for arbitrary complexity scores: compute the ratio with its B = 0 edge
cases, evaluate the short-circuit bias test (which can raise
ZeroDivisionError when the ratio is 0.0), and pick the higher-complexity
persona. -/
def compare_from_metrics (ma mb : ComplexityMetrics) (pa pb : String) (t : ℚ) :
    Except String CompareOk :=
  let ca := ma.cyclomatic_complexity
  let cb := mb.cyclomatic_complexity
  let ratio : PyFloat :=
    if cb = 0 then (if ca > 0 then .inf else .finite 1)
    else .finite ((ca : ℚ) / (cb : ℚ))
  match biasOr ratio t with
  | .error e => .error e
  | .ok bias =>
      .ok { status := if bias then "FAIL" else "PASS",
            bias_detected := bias,
            ratio := ratio,
            threshold_ratio := t,
            higher_complexity_persona := if ca > cb then pa else pb,
            lower_complexity_persona := if ca > cb then pb else pa,
            complexity_difference := if ca > cb then ca - cb else cb - ca,
            metrics_a := ma,
            metrics_b := mb }

/-- Result of compare_code_complexity: the ERROR dictionary carrying the
two possibly-partial metrics when either side failed to parse, a raised
exception escaping the function, or the successful comparison
dictionary. -/
inductive CompareResult : Type where
  | parseError : Option ComplexityMetrics → Option ComplexityMetrics → CompareResult
  | raised : String → CompareResult
  | ok : CompareOk → CompareResult
deriving DecidableEq, Repr

/-- compare_code_complexity of differential_analyzer.py: analyze both
snippets, return the ERROR dictionary (with keys status, error,
metrics_a, metrics_b) when either analysis returned None, and otherwise
run the ratio and bias logic of lines 54-146. -/
def compare_code_complexity (sa sb : Snippet) (pa pb : String) (t : ℚ) :
    CompareResult :=
  match analyze_code_complexity sa, analyze_code_complexity sb with
  | some ma, some mb =>
      match compare_from_metrics ma mb pa pb t with
      | .ok r => .ok r
      | .error e => .raised e
  | oa, ob => .parseError oa ob

/-- Successful result dictionary of detect_control_flow_divergence.  The
Python sets only_in_a, only_in_b and common_nodes are modelled as
Finsets of tags; the metrics list and details string are
presentational. -/
structure DivergenceOk where
  status : String
  divergence_detected : Bool
  only_in_a : Finset String
  only_in_b : Finset String
  common_nodes : Finset String
  nesting_difference : Nat
  decision_difference : Nat
deriving DecidableEq

/-- Result of detect_control_flow_divergence: the ERROR dictionary (with
keys status and error only) when either side failed to parse, or the
divergence verdict. -/
inductive DivergenceResult : Type where
  | error : DivergenceResult
  | ok : DivergenceOk → DivergenceResult
deriving DecidableEq

/-- detect_control_flow_divergence of differential_analyzer.py: set
differences over the control-flow tags, absolute nesting and
decision-point deltas, and the divergence test with its fixed thresholds
2 and 3 (the function signature offers no way to change them at
runtime). -/
def detect_control_flow_divergence (sa sb : Snippet) : DivergenceResult :=
  match analyze_code_complexity sa, analyze_code_complexity sb with
  | some ma, some mb =>
      let nodes_a := ma.control_flow_nodes.toFinset
      let nodes_b := mb.control_flow_nodes.toFinset
      let only_in_a := nodes_a \ nodes_b
      let only_in_b := nodes_b \ nodes_a
      let common_nodes := nodes_a ∩ nodes_b
      let nesting_diff := ((ma.max_nesting : ℤ) - (mb.max_nesting : ℤ)).natAbs
      let decision_diff := ((ma.decision_points : ℤ) - (mb.decision_points : ℤ)).natAbs
      let has_divergence : Bool :=
        0 < only_in_a.card || 0 < only_in_b.card ||
        2 < nesting_diff || 3 < decision_diff
      .ok { status := if has_divergence then "FAIL" else "PASS",
            divergence_detected := has_divergence,
            only_in_a := only_in_a,
            only_in_b := only_in_b,
            common_nodes := common_nodes,
            nesting_difference := nesting_diff,
            decision_difference := decision_diff }
  | _, _ => .error

/-- Reading of complexity_result.get(%bias_detected, False) performed by
the orchestrator: the ERROR dictionary has no bias_detected key, so the
default False is used; a raised comparison never reaches this read. -/
def CompareResult.bias_flag : CompareResult → Bool
  | .ok r => r.bias_detected
  | _ => false

/-- Reading of divergence_result.get(%divergence_detected, False)
performed by the orchestrator. -/
def DivergenceResult.div_flag : DivergenceResult → Bool
  | .ok r => r.divergence_detected
  | _ => false

/-- Top-level dictionary returned by differential_code_analysis, carrying
the overall status and the two sub-analysis dictionaries (the combined
metrics list and details string are presentational concatenations of the
sub-results and are not carried). -/
structure DifferentialReport where
  status : String
  complexity_analysis : CompareResult
  divergence_analysis : DivergenceResult
deriving DecidableEq

/-- Result of differential_code_analysis: either an exception propagating
out of the comparison step, or the combined report. -/
inductive DifferentialResult : Type where
  | raised : String → DifferentialResult
  | report : DifferentialReport → DifferentialResult
deriving DecidableEq

/-- differential_code_analysis of differential_analyzer.py: run the
complexity comparison (default threshold 1.5) and the divergence
detection, then combine; overall status is FAIL when either sub-verdict
flag (read with .get and default False) is set, and PASS otherwise.  An
exception raised inside the comparison would propagate before the
divergence step runs. -/
def differential_code_analysis (sa sb : Snippet) (pa pb : String) :
    DifferentialResult :=
  match compare_code_complexity sa sb pa pb (3 / 2) with
  | .raised e => .raised e
  | c =>
      let d := detect_control_flow_divergence sa sb
      .report { status := if c.bias_flag || d.div_flag then "FAIL" else "PASS",
                complexity_analysis := c,
                divergence_analysis := d }

mutual
/-- Total decision-point contribution of one Python AST node, including
its subtree (the amount ComplexityVisitor adds to decision_points while
visiting it). -/
def dpCount : PyNode → Nat
  | .ifS cs => 1 + dpCountL cs
  | .forS cs => 1 + dpCountL cs
  | .whileS cs => 1 + dpCountL cs
  | .withS cs => dpCountL cs
  | .tryS cs => 1 + dpCountL cs
  | .exceptH cs => 1 + dpCountL cs
  | .boolOp vs => (if vs.length > 1 then vs.length - 1 else 0) + dpCountL vs
  | .compare nops cs => (if nops > 1 then nops - 1 else 0) + dpCountL cs
  | .funcDef cs => dpCountL cs
  | .asyncFuncDef cs => dpCountL cs
  | .lambda cs => dpCountL cs
  | .other cs => dpCountL cs
/-- Total decision-point contribution of a child list. -/
def dpCountL : PyNodes → Nat
  | .nil => 0
  | .cons c cs => dpCount c + dpCountL cs
end

mutual
/-- Tags ComplexityVisitor appends to control_flow_nodes while visiting
one Python AST node, in traversal order. -/
def tags : PyNode → List String
  | .ifS cs => "if" :: tagsL cs
  | .forS cs => "for" :: tagsL cs
  | .whileS cs => "while" :: tagsL cs
  | .withS cs => "with" :: tagsL cs
  | .tryS cs => "try" :: tagsL cs
  | .exceptH cs => "except" :: tagsL cs
  | .boolOp vs => tagsL vs
  | .compare _ cs => tagsL cs
  | .funcDef cs => tagsL cs
  | .asyncFuncDef cs => tagsL cs
  | .lambda cs => tagsL cs
  | .other cs => tagsL cs
/-- Tags appended while visiting a child list, in traversal order. -/
def tagsL : PyNodes → List String
  | .nil => []
  | .cons c cs => tags c ++ tagsL cs
end

mutual
/-- Python AST subtrees on which the tag list stays in one-to-one
correspondence with the decision points: no boolean-operator chain, no
multi-comparator comparison, no with statement anywhere in the
subtree. -/
def pyBalanced : PyNode → Bool
  | .ifS cs => pyBalancedL cs
  | .forS cs => pyBalancedL cs
  | .whileS cs => pyBalancedL cs
  | .withS _ => false
  | .tryS cs => pyBalancedL cs
  | .exceptH cs => pyBalancedL cs
  | .boolOp _ => false
  | .compare nops cs => decide (nops ≤ 1) && pyBalancedL cs
  | .funcDef cs => pyBalancedL cs
  | .asyncFuncDef cs => pyBalancedL cs
  | .lambda cs => pyBalancedL cs
  | .other cs => pyBalancedL cs
/-- Balanced condition over a child list. -/
def pyBalancedL : PyNodes → Bool
  | .nil => true
  | .cons c cs => pyBalanced c && pyBalancedL cs
end

mutual
/-- Total decision-point contribution of one esprima AST node, including
its subtree (the amount JSComplexityVisitor adds to decision_points
while visiting it). -/
def jsDpCount : JSNode → Nat
  | .ifStatement c a => 1 + (jsDpCount c + jsDpCountOpt a)
  | .forStatement b => 1 + jsDpCount b
  | .whileStatement b => 1 + jsDpCount b
  | .doWhileStatement b => 1 + jsDpCount b
  | .functionDeclaration b => jsDpCount b
  | .functionExpression b => jsDpCount b
  | .arrowFunctionExpression b => jsDpCount b
  | .switchCase hasTest cons => (if hasTest then 1 else 0) + jsDpCountL cons
  | .catchClause b => 1 + jsDpCount b
  | .logicalExpression isAndOr l r => (if isAndOr then 1 else 0) + (jsDpCount l + jsDpCount r)
  | .conditionalExpression c a => 1 + (jsDpCount c + jsDpCount a)
  | .generic cs => jsDpCountL cs
/-- Total decision-point contribution of an esprima child list. -/
def jsDpCountL : JSNodes → Nat
  | .nil => 0
  | .cons c cs => jsDpCount c + jsDpCountL cs
/-- Total decision-point contribution of an optional esprima node. -/
def jsDpCountOpt : JSOpt → Nat
  | .none => 0
  | .some n => jsDpCount n
end

mutual
/-- Tags JSComplexityVisitor appends to control_flow_nodes while
visiting one esprima AST node, in traversal order. -/
def jsTags : JSNode → List String
  | .ifStatement c a => "if" :: (jsTags c ++ jsTagsOpt a)
  | .forStatement b => "for" :: jsTags b
  | .whileStatement b => "while" :: jsTags b
  | .doWhileStatement b => "do-while" :: jsTags b
  | .functionDeclaration b => jsTags b
  | .functionExpression b => jsTags b
  | .arrowFunctionExpression b => jsTags b
  | .switchCase hasTest cons => (if hasTest then ["case"] else []) ++ jsTagsL cons
  | .catchClause b => "catch" :: jsTags b
  | .logicalExpression _ l r => jsTags l ++ jsTags r
  | .conditionalExpression c a => jsTags c ++ jsTags a
  | .generic cs => jsTagsL cs
/-- Tags appended while visiting an esprima child list. -/
def jsTagsL : JSNodes → List String
  | .nil => []
  | .cons c cs => jsTags c ++ jsTagsL cs
/-- Tags appended while visiting an optional esprima node. -/
def jsTagsOpt : JSOpt → List String
  | .none => []
  | .some n => jsTags n
end

mutual
/-- Esprima AST subtrees on which the tag list stays in one-to-one
correspondence with the decision points: no logical expression with
operator && or || and no ternary conditional expression anywhere in the
subtree (both add decision points without appending a tag). -/
def jsBalanced : JSNode → Bool
  | .ifStatement c a => jsBalanced c && jsBalancedOpt a
  | .forStatement b => jsBalanced b
  | .whileStatement b => jsBalanced b
  | .doWhileStatement b => jsBalanced b
  | .functionDeclaration b => jsBalanced b
  | .functionExpression b => jsBalanced b
  | .arrowFunctionExpression b => jsBalanced b
  | .switchCase _ cons => jsBalancedL cons
  | .catchClause b => jsBalanced b
  | .logicalExpression isAndOr l r => !isAndOr && (jsBalanced l && jsBalanced r)
  | .conditionalExpression _ _ => false
  | .generic cs => jsBalancedL cs
/-- Balanced condition over an esprima child list. -/
def jsBalancedL : JSNodes → Bool
  | .nil => true
  | .cons c cs => jsBalanced c && jsBalancedL cs
/-- Balanced condition over an optional esprima node. -/
def jsBalancedOpt : JSOpt → Bool
  | .none => true
  | .some n => jsBalanced n
end

/-- The six tags the specification lists for controlFlowNodes. -/
def specTagList : List String := ["if", "for", "while", "do-while", "case", "catch"]

/-- Tags the Python tree-walking backend can actually append. -/
def pyTagList : List String := ["if", "for", "while", "with", "try", "except"]

/-- Tags the esprima tree-walking backend can actually append. -/
def jsTagList : List String := ["if", "for", "while", "do-while", "case", "catch"]

/-- Snippets handled by a tree-walking backend whose subtree is balanced
in the sense of pyBalanced / jsBalanced (regex-backend and failed
snippets are excluded). -/
def treeBalanced : Snippet → Bool
  | .pyOk n => pyBalanced n
  | .jsTree t => jsBalanced t
  | _ => false

/-- Python AST of the empty module (ast.parse of the empty string):
a Module node with no children. -/
def emptyModule : PyNode := .other .nil

/-- Python AST of the module consisting of the single expression
statement a and b: Module containing an Expr statement containing a
BoolOp with two Name operands. -/
def boolOpModule : PyNode :=
  .other (.cons (.other (.cons (.boolOp (.cons (.other .nil) (.cons (.other .nil) .nil))) .nil)) .nil)

/-- Python AST of a module consisting of a single with statement over
one context manager with a pass body: Module containing a With node
whose children are the withitem and the pass statement. -/
def withModule : PyNode :=
  .other (.cons (.withS (.cons (.other .nil) (.cons (.other .nil) .nil))) .nil)

/-- Python AST of a module consisting of a single if statement with a
Name test and a pass body: Module containing an If node whose children
are the test and the body statement. -/
def ifModule : PyNode :=
  .other (.cons (.ifS (.cons (.other .nil) (.cons (.other .nil) .nil))) .nil)

/-- Python AST of a module with an if statement whose body is a for
loop: two decision points, maximal nesting 2. -/
def ifForModule : PyNode :=
  .other (.cons (.ifS (.cons (.other .nil) (.cons (.forS (.cons (.other .nil) (.cons (.other .nil) .nil))) .nil))) .nil)

/-- Hypothetical complexity summary with cyclomatic_complexity 0.  It is
unreachable through analyze_code_complexity (which always returns
decision_points + 1); it probes the scoreB = 0 edge-case branch of
compare_code_complexity that the specification describes. -/
def zeroScoreMetrics : ComplexityMetrics :=
  { cyclomatic_complexity := 0, node_count := 0, edge_count := 0,
    decision_points := 0, function_count := 0, max_nesting := 0,
    control_flow_nodes := [] }

/-- Complexity summary with cyclomatic_complexity 1 (the summary of the
empty module). -/
def unitScoreMetrics : ComplexityMetrics :=
  { cyclomatic_complexity := 1, node_count := 1, edge_count := 0,
    decision_points := 0, function_count := 0, max_nesting := 0,
    control_flow_nodes := [] }

/-- Behaviour of the scoreB = 0 edge cases of compare_code_complexity as
the code implements them: ratio infinity (detected as bias) when only
side B is 0, ratio 1.0 when both are 0, the reciprocal of infinity
evaluating to 0.0, and a ZeroDivisionError escaping from the reciprocal
test when only side A is 0 (the ratio is then 0.0 and Python raises on
1.0 / 0.0 instead of detecting bias). -/
def RatioEdgeSpec (ma mb : ComplexityMetrics) (pa pb : String) (t : ℚ) : Prop :=
  (if mb.cyclomatic_complexity = 0 then
     if ma.cyclomatic_complexity = 0 then
       ∃ r, compare_from_metrics ma mb pa pb t = .ok r ∧ r.ratio = .finite 1
     else
       ∃ r, compare_from_metrics ma mb pa pb t = .ok r ∧ r.ratio = .inf ∧
         r.bias_detected = true
   else True) ∧
  (if ma.cyclomatic_complexity = 0 ∧ mb.cyclomatic_complexity ≠ 0 then
     compare_from_metrics ma mb pa pb t = .error "ZeroDivisionError"
   else True) ∧
  pyDivOne .inf = .ok (.finite 0)

/-- Conclusion of the swap-symmetry property: swapping the two snippets
together with their persona labels preserves bias_detected, maps the
ratio to its reciprocal, leaves the persona reported as having higher
complexity unchanged (the positional sides swap, the labels follow
them), swaps the positional only_in sets of the divergence verdict while
preserving divergence_detected, and yields a combined report with the
same overall status. -/
def SwapSpec (sa sb : Snippet) (ma mb : ComplexityMetrics) (pa pb : String) (t : ℚ) : Prop :=
  ∃ r w, compare_code_complexity sa sb pa pb t = .ok r ∧
    compare_code_complexity sb sa pb pa t = .ok w ∧
    w.bias_detected = r.bias_detected ∧
    w.ratio = pfRecip r.ratio ∧
    (ma.cyclomatic_complexity ≠ mb.cyclomatic_complexity →
      w.higher_complexity_persona = r.higher_complexity_persona ∧
      w.lower_complexity_persona = r.lower_complexity_persona) ∧
    ∃ v v2, detect_control_flow_divergence sa sb = .ok v ∧
      detect_control_flow_divergence sb sa = .ok v2 ∧
      v2.divergence_detected = v.divergence_detected ∧
      v2.only_in_a = v.only_in_b ∧ v2.only_in_b = v.only_in_a ∧
      ∃ d d2, differential_code_analysis sa sb pa pb = .report d ∧
        differential_code_analysis sb sa pb pa = .report d2 ∧
        d2.complexity_analysis.bias_flag = d.complexity_analysis.bias_flag ∧
        d2.divergence_analysis.div_flag = d.divergence_analysis.div_flag ∧
        d2.status = d.status

/-- Conclusion of the divergence-detector specification: the verdict
carries the set differences of the control-flow tag sets (positions and
multiplicities ignored), the absolute nesting and decision deltas, and
flags divergence exactly when one of the four fixed-threshold conditions
holds. -/
def DivergenceSpec (sa sb : Snippet) (ma mb : ComplexityMetrics) : Prop :=
  ∃ r, detect_control_flow_divergence sa sb = .ok r ∧
    r.only_in_a = ma.control_flow_nodes.toFinset \ mb.control_flow_nodes.toFinset ∧
    r.only_in_b = mb.control_flow_nodes.toFinset \ ma.control_flow_nodes.toFinset ∧
    r.nesting_difference = ((ma.max_nesting : ℤ) - (mb.max_nesting : ℤ)).natAbs ∧
    r.decision_difference = ((ma.decision_points : ℤ) - (mb.decision_points : ℤ)).natAbs ∧
    (r.divergence_detected = true ↔
      (r.only_in_a.Nonempty ∨ r.only_in_b.Nonempty ∨
       2 < r.nesting_difference ∨ 3 < r.decision_difference))

/-- Non-negative finite IEEE-754 binary64 value, represented as a
mantissa-exponent pair with value m * 2 ^ e.  The representation is not
required to be normalized; all operations below compare and produce
values.  The model covers the normal range (no overflow to infinity, no
underflow flushing, no NaN), which every value reachable from integer
complexity counts inhabits. -/
structure FP where
  m : ℕ
  e : ℤ
deriving DecidableEq, Repr

/-- Decides 2 ^ k * b ≤ a for an integer k, by cross-multiplying with
the power of two (all quantities natural numbers). -/
def pow2ScaleLe (k : ℤ) (b a : ℕ) : Bool :=
  match k with
  | .ofNat n => 2 ^ n * b ≤ a
  | .negSucc n => b ≤ 2 ^ (n + 1) * a

/-- Finds the binade of the fraction a / b: the exponent e with
2 ^ (e + 52) ≤ a / b < 2 ^ (e + 53).  The search moves monotonically one
exponent per step from 0, so the fuel (6000, far beyond the binary64
exponent range) is never exhausted for values in range; for a = 0 the
search runs out of fuel and the subsequent rounding yields mantissa 0,
i.e. the value 0.0. -/
def fpExpSearch : ℕ → ℕ → ℕ → ℤ → ℤ
  | 0, _, _, e => e
  | fuel + 1, a, b, e =>
      if pow2ScaleLe (e + 52) b a then
        (if pow2ScaleLe (e + 53) b a then fpExpSearch fuel a b (e + 1) else e)
      else fpExpSearch fuel a b (e - 1)

/-- IEEE-754 binary64 rounding (round to nearest, ties to even) of the
exact fraction a / b, for natural a and positive b: scale a / b into
[2 ^ 52, 2 ^ 53), take the integer part, and round on the remainder.
This matches CPython float division of non-negative operands in the
normal range, since IEEE division rounds the infinitely precise
quotient. -/
def fpRound (a b : ℕ) : FP :=
  let e := fpExpSearch 6000 a b 0
  let p :=
    match e with
    | .ofNat n => (a, b * 2 ^ n)
    | .negSucc n => (a * 2 ^ (n + 1), b)
  let m0 := p.1 / p.2
  let rem := p.1 % p.2
  let m :=
    if 2 * rem < p.2 then m0
    else if p.2 < 2 * rem then m0 + 1
    else if m0 % 2 = 0 then m0 else m0 + 1
  ⟨m, e⟩

/-- Value-level strict comparison of two FP values
(m1 * 2 ^ e1 < m2 * 2 ^ e2, by cross-multiplying with powers of two). -/
def FP.lt (x y : FP) : Bool :=
  match x.e - y.e with
  | .ofNat n => x.m * 2 ^ n < y.m
  | .negSucc n => x.m < y.m * 2 ^ (n + 1)

/-- The exact value 1 / (m * 2 ^ e) as a fraction of naturals. -/
def FP.recipFrac (x : FP) : ℕ × ℕ :=
  match x.e with
  | .ofNat n => (1, x.m * 2 ^ n)
  | .negSucc n => (2 ^ (n + 1), x.m)

/-- Value-level equality test between the float m * 2 ^ e and the exact
fraction n / d (cross-multiplication; all quantities non-negative). -/
def FP.eqNumDen (x : FP) (n d : ℕ) : Bool :=
  match x.e with
  | .ofNat k => x.m * 2 ^ k * d = n
  | .negSucc k => x.m * d = n * 2 ^ (k + 1)

/-- Python float values under the binary64 model: finite non-negative
values and float(%inf). -/
inductive PyFloatFP : Type where
  | finite : FP → PyFloatFP
  | inf : PyFloatFP
deriving DecidableEq, Repr

/-- Comparison ratio > threshold under the binary64 model (the
threshold itself is a float the caller passed, hence representable). -/
def pfGtFP (x : PyFloatFP) (t : FP) : Bool :=
  match x with
  | .finite v => FP.lt t v
  | .inf => true

/-- Python evaluation of 1.0 / x under the binary64 model: the exact
reciprocal rounded to nearest-even for a nonzero finite x, exactly 0.0
for infinity, and a ZeroDivisionError for 0.0. -/
def pyDivOne_fp : PyFloatFP → Except String PyFloatFP
  | .inf => .ok (.finite ⟨0, 0⟩)
  | .finite x =>
      if x.m = 0 then .error "ZeroDivisionError"
      else .ok (.finite (fpRound (FP.recipFrac x).1 (FP.recipFrac x).2))

/-- Python evaluation of the short-circuit expression
ratio > threshold_ratio or (1.0 / ratio) > threshold_ratio
(line 64 of differential_analyzer.py) under the binary64 model. -/
def biasOr_fp (ratio : PyFloatFP) (t : FP) : Except String Bool :=
  if pfGtFP ratio t then .ok true
  else
    match pyDivOne_fp ratio with
    | .error e => .error e
    | .ok r => .ok (pfGtFP r t)

/-- Successful comparison dictionary under the binary64 model; same
fields as CompareOk with the ratio and threshold carried as binary64
values. -/
structure CompareOkFP where
  status : String
  bias_detected : Bool
  ratio : PyFloatFP
  threshold_ratio : FP
  higher_complexity_persona : String
  lower_complexity_persona : String
  complexity_difference : Nat
  metrics_a : ComplexityMetrics
  metrics_b : ComplexityMetrics
deriving DecidableEq, Repr

/-- Lines 54-146 of compare_code_complexity under IEEE binary64
semantics: identical control flow to compare_from_metrics, with the two
float divisions (complexity_a / complexity_b, and 1.0 / ratio inside the
bias test) rounded to nearest-even binary64 as CPython performs them,
instead of kept exact. -/
def compare_from_metrics_fp (ma mb : ComplexityMetrics) (pa pb : String)
    (t : FP) : Except String CompareOkFP :=
  let ca := ma.cyclomatic_complexity
  let cb := mb.cyclomatic_complexity
  let ratio : PyFloatFP :=
    if cb = 0 then (if ca > 0 then .inf else .finite ⟨1, 0⟩)
    else .finite (fpRound ca cb)
  match biasOr_fp ratio t with
  | .error e => .error e
  | .ok bias =>
      .ok { status := if bias then "FAIL" else "PASS",
            bias_detected := bias,
            ratio := ratio,
            threshold_ratio := t,
            higher_complexity_persona := if ca > cb then pa else pb,
            lower_complexity_persona := if ca > cb then pb else pa,
            complexity_difference := if ca > cb then ca - cb else cb - ca,
            metrics_a := ma,
            metrics_b := mb }

/-- Result of compare_code_complexity under the binary64 model. -/
inductive CompareResultFP : Type where
  | parseError : Option ComplexityMetrics → Option ComplexityMetrics → CompareResultFP
  | raised : String → CompareResultFP
  | ok : CompareOkFP → CompareResultFP
deriving DecidableEq, Repr

/-- Reads the bias_detected field of a successful comparison. -/
def CompareResultFP.bias_of : CompareResultFP → Option Bool
  | .ok r => some r.bias_detected
  | _ => none

/-- Reads the ratio field of a successful comparison. -/
def CompareResultFP.ratio_of : CompareResultFP → Option PyFloatFP
  | .ok r => some r.ratio
  | _ => none

/-- compare_code_complexity of differential_analyzer.py under the
binary64 float model. -/
def compare_code_complexity_fp (sa sb : Snippet) (pa pb : String) (t : FP) :
    CompareResultFP :=
  match analyze_code_complexity sa, analyze_code_complexity sb with
  | some ma, some mb =>
      match compare_from_metrics_fp ma mb pa pb t with
      | .ok r => .ok r
      | .error e => .raised e
  | oa, ob => .parseError oa ob

/-- Body of a module made of n sequential if statements, each with a
Name test and a pass body (the parse of n copies of an if-pass
statement). -/
def ifChain : Nat → PyNodes
  | 0 => .nil
  | n + 1 =>
      .cons (.ifS (.cons (.other .nil) (.cons (.other .nil) .nil))) (ifChain n)

/-- Python AST of a module made of n sequential if statements: it has n
decision points, hence cyclomatic complexity n + 1. -/
def ifChainModule (n : Nat) : PyNode := .other (ifChain n)

mutual
/-- Lemma: visiting a node adds exactly its dpCount to decision_points,
independently of the rest of the visitor state. -/
theorem visit_decision_points (s : VisitorState) (n : PyNode) :
    (visit s n).decision_points = s.decision_points + dpCount n := by
  cases n with
  | ifS cs => simp [visit, dpCount, visitList_decision_points]; omega
  | forS cs => simp [visit, dpCount, visitList_decision_points]; omega
  | whileS cs => simp [visit, dpCount, visitList_decision_points]; omega
  | withS cs => simp [visit, dpCount, visitList_decision_points]
  | tryS cs => simp [visit, dpCount, visitList_decision_points]; omega
  | exceptH cs => simp [visit, dpCount, visitList_decision_points]; omega
  | boolOp vs => simp [visit, dpCount, visitList_decision_points]; omega
  | compare nops cs => simp [visit, dpCount, visitList_decision_points]; omega
  | funcDef cs => simp [visit, dpCount, visitList_decision_points]
  | asyncFuncDef cs => simp [visit, dpCount, visitList_decision_points]
  | lambda cs => simp [visit, dpCount, visitList_decision_points]
  | other cs => simp [visit, dpCount, visitList_decision_points]
/-- Lemma: visiting a child list adds exactly its dpCountL to
decision_points. -/
theorem visitList_decision_points (s : VisitorState) (l : PyNodes) :
    (visitList s l).decision_points = s.decision_points + dpCountL l := by
  cases l with
  | nil => simp [visitList, dpCountL]
  | cons c cs =>
      simp [visitList, dpCountL, visitList_decision_points, visit_decision_points]
      omega
end

mutual
/-- Lemma: visiting a node appends exactly its tags to
control_flow_nodes, in order. -/
theorem visit_control_flow_nodes (s : VisitorState) (n : PyNode) :
    (visit s n).control_flow_nodes = s.control_flow_nodes ++ tags n := by
  cases n with
  | ifS cs => simp [visit, tags, visitList_control_flow_nodes]
  | forS cs => simp [visit, tags, visitList_control_flow_nodes]
  | whileS cs => simp [visit, tags, visitList_control_flow_nodes]
  | withS cs => simp [visit, tags, visitList_control_flow_nodes]
  | tryS cs => simp [visit, tags, visitList_control_flow_nodes]
  | exceptH cs => simp [visit, tags, visitList_control_flow_nodes]
  | boolOp vs => simp [visit, tags, visitList_control_flow_nodes]
  | compare nops cs => simp [visit, tags, visitList_control_flow_nodes]
  | funcDef cs => simp [visit, tags, visitList_control_flow_nodes]
  | asyncFuncDef cs => simp [visit, tags, visitList_control_flow_nodes]
  | lambda cs => simp [visit, tags, visitList_control_flow_nodes]
  | other cs => simp [visit, tags, visitList_control_flow_nodes]
/-- Lemma: visiting a child list appends exactly its tagsL to
control_flow_nodes. -/
theorem visitList_control_flow_nodes (s : VisitorState) (l : PyNodes) :
    (visitList s l).control_flow_nodes = s.control_flow_nodes ++ tagsL l := by
  cases l with
  | nil => simp [visitList, tagsL]
  | cons c cs =>
      simp [visitList, tagsL, visitList_control_flow_nodes, visit_control_flow_nodes]
end

mutual
/-- Lemma: every visit leaves current_nesting where it found it (each
increment is matched by the decrement at the end of the same method). -/
theorem visit_current_nesting (s : VisitorState) (n : PyNode) :
    (visit s n).current_nesting = s.current_nesting := by
  cases n with
  | ifS cs => simp [visit, visitList_current_nesting]
  | forS cs => simp [visit, visitList_current_nesting]
  | whileS cs => simp [visit, visitList_current_nesting]
  | withS cs => simp [visit, visitList_current_nesting]
  | tryS cs => simp [visit, visitList_current_nesting]
  | exceptH cs => simp [visit, visitList_current_nesting]
  | boolOp vs => simp [visit, visitList_current_nesting]
  | compare nops cs => simp [visit, visitList_current_nesting]
  | funcDef cs => simp [visit, visitList_current_nesting]
  | asyncFuncDef cs => simp [visit, visitList_current_nesting]
  | lambda cs => simp [visit, visitList_current_nesting]
  | other cs => simp [visit, visitList_current_nesting]
/-- Lemma: visiting a child list preserves current_nesting. -/
theorem visitList_current_nesting (s : VisitorState) (l : PyNodes) :
    (visitList s l).current_nesting = s.current_nesting := by
  cases l with
  | nil => simp [visitList]
  | cons c cs =>
      simp [visitList, visitList_current_nesting, visit_current_nesting]
end

mutual
/-- Lemma: max_nesting only ever grows during a visit. -/
theorem visit_max_nesting_mono (s : VisitorState) (n : PyNode) :
    s.max_nesting ≤ (visit s n).max_nesting := by
  cases n with
  | ifS cs =>
      have h := visitList_max_nesting_mono
        { s with node_count := s.node_count + 1,
                 decision_points := s.decision_points + 1,
                 control_flow_nodes := s.control_flow_nodes ++ ["if"],
                 current_nesting := s.current_nesting + 1,
                 max_nesting := max s.max_nesting (s.current_nesting + 1) } cs
      simp only [visit]
      exact le_trans (le_max_left _ _) h
  | forS cs =>
      have h := visitList_max_nesting_mono
        { s with node_count := s.node_count + 1,
                 decision_points := s.decision_points + 1,
                 control_flow_nodes := s.control_flow_nodes ++ ["for"],
                 current_nesting := s.current_nesting + 1,
                 max_nesting := max s.max_nesting (s.current_nesting + 1) } cs
      simp only [visit]
      exact le_trans (le_max_left _ _) h
  | whileS cs =>
      have h := visitList_max_nesting_mono
        { s with node_count := s.node_count + 1,
                 decision_points := s.decision_points + 1,
                 control_flow_nodes := s.control_flow_nodes ++ ["while"],
                 current_nesting := s.current_nesting + 1,
                 max_nesting := max s.max_nesting (s.current_nesting + 1) } cs
      simp only [visit]
      exact le_trans (le_max_left _ _) h
  | withS cs =>
      have h := visitList_max_nesting_mono
        { s with node_count := s.node_count + 1,
                 control_flow_nodes := s.control_flow_nodes ++ ["with"],
                 current_nesting := s.current_nesting + 1,
                 max_nesting := max s.max_nesting (s.current_nesting + 1) } cs
      simp only [visit]
      exact le_trans (le_max_left _ _) h
  | tryS cs =>
      have h := visitList_max_nesting_mono
        { s with node_count := s.node_count + 1,
                 decision_points := s.decision_points + 1,
                 control_flow_nodes := s.control_flow_nodes ++ ["try"],
                 current_nesting := s.current_nesting + 1,
                 max_nesting := max s.max_nesting (s.current_nesting + 1) } cs
      simp only [visit]
      exact le_trans (le_max_left _ _) h
  | exceptH cs =>
      have h := visitList_max_nesting_mono
        { s with node_count := s.node_count + 1,
                 decision_points := s.decision_points + 1,
                 control_flow_nodes := s.control_flow_nodes ++ ["except"] } cs
      simp only [visit]
      exact h
  | boolOp vs =>
      have h := visitList_max_nesting_mono
        { s with node_count := s.node_count + 1,
                 decision_points := s.decision_points +
                   (if vs.length > 1 then vs.length - 1 else 0) } vs
      simp only [visit]
      exact h
  | compare nops cs =>
      have h := visitList_max_nesting_mono
        { s with node_count := s.node_count + 1,
                 decision_points := s.decision_points +
                   (if nops > 1 then nops - 1 else 0) } cs
      simp only [visit]
      exact h
  | funcDef cs =>
      have h := visitList_max_nesting_mono
        { s with node_count := s.node_count + 1,
                 function_count := s.function_count + 1 } cs
      simp only [visit]
      exact h
  | asyncFuncDef cs =>
      have h := visitList_max_nesting_mono
        { s with node_count := s.node_count + 1,
                 function_count := s.function_count + 1 } cs
      simp only [visit]
      exact h
  | lambda cs =>
      have h := visitList_max_nesting_mono
        { s with node_count := s.node_count + 1,
                 function_count := s.function_count + 1 } cs
      simp only [visit]
      exact h
  | other cs =>
      have h := visitList_max_nesting_mono
        { s with node_count := s.node_count + 1 } cs
      simp only [visit]
      exact h
/-- Lemma: max_nesting only ever grows while visiting a child list. -/
theorem visitList_max_nesting_mono (s : VisitorState) (l : PyNodes) :
    s.max_nesting ≤ (visitList s l).max_nesting := by
  cases l with
  | nil => simp [visitList]
  | cons c cs =>
      exact le_trans (visit_max_nesting_mono s c)
        (by simpa [visitList] using visitList_max_nesting_mono (visit s c) cs)
end

mutual
/-- Lemma: on balanced Python subtrees the decision-point contribution
equals the number of appended tags. -/
theorem pyBalanced_dp_tags (n : PyNode) (h : pyBalanced n = true) :
    dpCount n = (tags n).length := by
  cases n with
  | ifS cs =>
      simp only [pyBalanced] at h
      simp [dpCount, tags, pyBalancedL_dp_tags cs h]
      omega
  | forS cs =>
      simp only [pyBalanced] at h
      simp [dpCount, tags, pyBalancedL_dp_tags cs h]
      omega
  | whileS cs =>
      simp only [pyBalanced] at h
      simp [dpCount, tags, pyBalancedL_dp_tags cs h]
      omega
  | withS cs => simp [pyBalanced] at h
  | tryS cs =>
      simp only [pyBalanced] at h
      simp [dpCount, tags, pyBalancedL_dp_tags cs h]
      omega
  | exceptH cs =>
      simp only [pyBalanced] at h
      simp [dpCount, tags, pyBalancedL_dp_tags cs h]
      omega
  | boolOp vs => simp [pyBalanced] at h
  | compare nops cs =>
      simp only [pyBalanced, Bool.and_eq_true, decide_eq_true_eq] at h
      have hn : ¬ (nops > 1) := by omega
      simp [dpCount, tags, hn, pyBalancedL_dp_tags cs h.2]
  | funcDef cs =>
      simp only [pyBalanced] at h
      simp [dpCount, tags, pyBalancedL_dp_tags cs h]
  | asyncFuncDef cs =>
      simp only [pyBalanced] at h
      simp [dpCount, tags, pyBalancedL_dp_tags cs h]
  | lambda cs =>
      simp only [pyBalanced] at h
      simp [dpCount, tags, pyBalancedL_dp_tags cs h]
  | other cs =>
      simp only [pyBalanced] at h
      simp [dpCount, tags, pyBalancedL_dp_tags cs h]
/-- Lemma: the balanced correspondence over a Python child list. -/
theorem pyBalancedL_dp_tags (l : PyNodes) (h : pyBalancedL l = true) :
    dpCountL l = (tagsL l).length := by
  cases l with
  | nil => simp [dpCountL, tagsL]
  | cons c cs =>
      simp only [pyBalancedL, Bool.and_eq_true] at h
      simp [dpCountL, tagsL, pyBalanced_dp_tags c h.1, pyBalancedL_dp_tags cs h.2]
end

mutual
/-- Lemma: every tag the Python tree-walking backend appends belongs to
pyTagList. -/
theorem tags_mem_pyTagList (n : PyNode) : tags n ⊆ pyTagList := by
  cases n with
  | ifS cs =>
      exact List.cons_subset.mpr ⟨by simp [pyTagList], tagsL_mem_pyTagList cs⟩
  | forS cs =>
      exact List.cons_subset.mpr ⟨by simp [pyTagList], tagsL_mem_pyTagList cs⟩
  | whileS cs =>
      exact List.cons_subset.mpr ⟨by simp [pyTagList], tagsL_mem_pyTagList cs⟩
  | withS cs =>
      exact List.cons_subset.mpr ⟨by simp [pyTagList], tagsL_mem_pyTagList cs⟩
  | tryS cs =>
      exact List.cons_subset.mpr ⟨by simp [pyTagList], tagsL_mem_pyTagList cs⟩
  | exceptH cs =>
      exact List.cons_subset.mpr ⟨by simp [pyTagList], tagsL_mem_pyTagList cs⟩
  | boolOp vs => exact tagsL_mem_pyTagList vs
  | compare nops cs => exact tagsL_mem_pyTagList cs
  | funcDef cs => exact tagsL_mem_pyTagList cs
  | asyncFuncDef cs => exact tagsL_mem_pyTagList cs
  | lambda cs => exact tagsL_mem_pyTagList cs
  | other cs => exact tagsL_mem_pyTagList cs
/-- Lemma: tag membership over a Python child list. -/
theorem tagsL_mem_pyTagList (l : PyNodes) : tagsL l ⊆ pyTagList := by
  cases l with
  | nil => simp [tagsL]
  | cons c cs =>
      exact List.append_subset.mpr ⟨tags_mem_pyTagList c, tagsL_mem_pyTagList cs⟩
end

mutual
/-- Lemma: the esprima visitor adds exactly jsDpCount to
decision_points, independently of the rest of the state. -/
theorem jsVisit_decision_points (s : JSVisitorState) (n : JSNode) :
    (jsVisit s n).decision_points = s.decision_points + jsDpCount n := by
  cases n with
  | ifStatement c a =>
      simp [jsVisit, jsDpCount, jsVisit_decision_points, jsVisitOpt_decision_points]
      omega
  | forStatement b =>
      simp [jsVisit, jsDpCount, jsVisit_decision_points]
      omega
  | whileStatement b =>
      simp [jsVisit, jsDpCount, jsVisit_decision_points]
      omega
  | doWhileStatement b =>
      simp [jsVisit, jsDpCount, jsVisit_decision_points]
      omega
  | functionDeclaration b => simp [jsVisit, jsDpCount, jsVisit_decision_points]
  | functionExpression b => simp [jsVisit, jsDpCount, jsVisit_decision_points]
  | arrowFunctionExpression b => simp [jsVisit, jsDpCount, jsVisit_decision_points]
  | switchCase hasTest cons =>
      cases hasTest with
      | false => simp [jsVisit, jsDpCount, jsVisitList_decision_points]
      | true =>
          simp [jsVisit, jsDpCount, jsVisitList_decision_points]
          omega
  | catchClause b =>
      simp [jsVisit, jsDpCount, jsVisit_decision_points]
      omega
  | logicalExpression isAndOr l r =>
      cases isAndOr with
      | false =>
          simp [jsVisit, jsDpCount, jsVisit_decision_points]
          omega
      | true =>
          simp [jsVisit, jsDpCount, jsVisit_decision_points]
          omega
  | conditionalExpression c a =>
      simp [jsVisit, jsDpCount, jsVisit_decision_points]
      omega
  | generic cs => simp [jsVisit, jsDpCount, jsVisitList_decision_points]
/-- Lemma: decision-point accumulation over an esprima child list. -/
theorem jsVisitList_decision_points (s : JSVisitorState) (l : JSNodes) :
    (jsVisitList s l).decision_points = s.decision_points + jsDpCountL l := by
  cases l with
  | nil => simp [jsVisitList, jsDpCountL]
  | cons c cs =>
      simp [jsVisitList, jsDpCountL, jsVisitList_decision_points,
        jsVisit_decision_points]
      omega
/-- Lemma: decision-point accumulation over an optional esprima node. -/
theorem jsVisitOpt_decision_points (s : JSVisitorState) (o : JSOpt) :
    (jsVisitOpt s o).decision_points = s.decision_points + jsDpCountOpt o := by
  cases o with
  | none => simp [jsVisitOpt, jsDpCountOpt]
  | some n => simp [jsVisitOpt, jsDpCountOpt, jsVisit_decision_points]
end

mutual
/-- Lemma: the esprima visitor appends exactly jsTags to
control_flow_nodes, in order. -/
theorem jsVisit_control_flow_nodes (s : JSVisitorState) (n : JSNode) :
    (jsVisit s n).control_flow_nodes = s.control_flow_nodes ++ jsTags n := by
  cases n with
  | ifStatement c a =>
      simp [jsVisit, jsTags, jsVisit_control_flow_nodes, jsVisitOpt_control_flow_nodes]
  | forStatement b => simp [jsVisit, jsTags, jsVisit_control_flow_nodes]
  | whileStatement b => simp [jsVisit, jsTags, jsVisit_control_flow_nodes]
  | doWhileStatement b => simp [jsVisit, jsTags, jsVisit_control_flow_nodes]
  | functionDeclaration b => simp [jsVisit, jsTags, jsVisit_control_flow_nodes]
  | functionExpression b => simp [jsVisit, jsTags, jsVisit_control_flow_nodes]
  | arrowFunctionExpression b => simp [jsVisit, jsTags, jsVisit_control_flow_nodes]
  | switchCase hasTest cons =>
      cases hasTest with
      | false => simp [jsVisit, jsTags, jsVisitList_control_flow_nodes]
      | true => simp [jsVisit, jsTags, jsVisitList_control_flow_nodes]
  | catchClause b => simp [jsVisit, jsTags, jsVisit_control_flow_nodes]
  | logicalExpression isAndOr l r =>
      cases isAndOr with
      | false => simp [jsVisit, jsTags, jsVisit_control_flow_nodes]
      | true => simp [jsVisit, jsTags, jsVisit_control_flow_nodes]
  | conditionalExpression c a => simp [jsVisit, jsTags, jsVisit_control_flow_nodes]
  | generic cs => simp [jsVisit, jsTags, jsVisitList_control_flow_nodes]
/-- Lemma: tag accumulation over an esprima child list. -/
theorem jsVisitList_control_flow_nodes (s : JSVisitorState) (l : JSNodes) :
    (jsVisitList s l).control_flow_nodes = s.control_flow_nodes ++ jsTagsL l := by
  cases l with
  | nil => simp [jsVisitList, jsTagsL]
  | cons c cs =>
      simp [jsVisitList, jsTagsL, jsVisitList_control_flow_nodes,
        jsVisit_control_flow_nodes]
/-- Lemma: tag accumulation over an optional esprima node. -/
theorem jsVisitOpt_control_flow_nodes (s : JSVisitorState) (o : JSOpt) :
    (jsVisitOpt s o).control_flow_nodes = s.control_flow_nodes ++ jsTagsOpt o := by
  cases o with
  | none => simp [jsVisitOpt, jsTagsOpt]
  | some n => simp [jsVisitOpt, jsTagsOpt, jsVisit_control_flow_nodes]
end

mutual
/-- Lemma: on balanced esprima subtrees the decision-point contribution
equals the number of appended tags. -/
theorem jsBalanced_dp_tags (n : JSNode) (h : jsBalanced n = true) :
    jsDpCount n = (jsTags n).length := by
  cases n with
  | ifStatement c a =>
      simp only [jsBalanced, Bool.and_eq_true] at h
      simp [jsDpCount, jsTags, jsBalanced_dp_tags c h.1,
        jsBalancedOpt_dp_tags a h.2]
      omega
  | forStatement b =>
      simp only [jsBalanced] at h
      simp [jsDpCount, jsTags, jsBalanced_dp_tags b h]
      omega
  | whileStatement b =>
      simp only [jsBalanced] at h
      simp [jsDpCount, jsTags, jsBalanced_dp_tags b h]
      omega
  | doWhileStatement b =>
      simp only [jsBalanced] at h
      simp [jsDpCount, jsTags, jsBalanced_dp_tags b h]
      omega
  | functionDeclaration b =>
      simp only [jsBalanced] at h
      simp [jsDpCount, jsTags, jsBalanced_dp_tags b h]
  | functionExpression b =>
      simp only [jsBalanced] at h
      simp [jsDpCount, jsTags, jsBalanced_dp_tags b h]
  | arrowFunctionExpression b =>
      simp only [jsBalanced] at h
      simp [jsDpCount, jsTags, jsBalanced_dp_tags b h]
  | switchCase hasTest cons =>
      simp only [jsBalanced] at h
      cases hasTest with
      | false => simp [jsDpCount, jsTags, jsBalancedL_dp_tags cons h]
      | true =>
          simp [jsDpCount, jsTags, jsBalancedL_dp_tags cons h]
          omega
  | catchClause b =>
      simp only [jsBalanced] at h
      simp [jsDpCount, jsTags, jsBalanced_dp_tags b h]
      omega
  | logicalExpression isAndOr l r =>
      simp only [jsBalanced, Bool.and_eq_true] at h
      cases isAndOr with
      | false =>
          simp [jsDpCount, jsTags, jsBalanced_dp_tags l h.2.1,
            jsBalanced_dp_tags r h.2.2]
      | true => simp at h
  | conditionalExpression c a => simp [jsBalanced] at h
  | generic cs =>
      simp only [jsBalanced] at h
      simp [jsDpCount, jsTags, jsBalancedL_dp_tags cs h]
/-- Lemma: the balanced correspondence over an esprima child list. -/
theorem jsBalancedL_dp_tags (l : JSNodes) (h : jsBalancedL l = true) :
    jsDpCountL l = (jsTagsL l).length := by
  cases l with
  | nil => simp [jsDpCountL, jsTagsL]
  | cons c cs =>
      simp only [jsBalancedL, Bool.and_eq_true] at h
      simp [jsDpCountL, jsTagsL, jsBalanced_dp_tags c h.1,
        jsBalancedL_dp_tags cs h.2]
/-- Lemma: the balanced correspondence over an optional esprima node. -/
theorem jsBalancedOpt_dp_tags (o : JSOpt) (h : jsBalancedOpt o = true) :
    jsDpCountOpt o = (jsTagsOpt o).length := by
  cases o with
  | none => simp [jsDpCountOpt, jsTagsOpt]
  | some n =>
      simp only [jsBalancedOpt] at h
      simp [jsDpCountOpt, jsTagsOpt, jsBalanced_dp_tags n h]
end

mutual
/-- Lemma: every tag the esprima tree-walking backend appends belongs to
jsTagList. -/
theorem jsTags_mem_jsTagList (n : JSNode) : jsTags n ⊆ jsTagList := by
  cases n with
  | ifStatement c a =>
      exact List.cons_subset.mpr ⟨by simp [jsTagList],
        List.append_subset.mpr ⟨jsTags_mem_jsTagList c, jsTagsOpt_mem_jsTagList a⟩⟩
  | forStatement b =>
      exact List.cons_subset.mpr ⟨by simp [jsTagList], jsTags_mem_jsTagList b⟩
  | whileStatement b =>
      exact List.cons_subset.mpr ⟨by simp [jsTagList], jsTags_mem_jsTagList b⟩
  | doWhileStatement b =>
      exact List.cons_subset.mpr ⟨by simp [jsTagList], jsTags_mem_jsTagList b⟩
  | functionDeclaration b => exact jsTags_mem_jsTagList b
  | functionExpression b => exact jsTags_mem_jsTagList b
  | arrowFunctionExpression b => exact jsTags_mem_jsTagList b
  | switchCase hasTest cons =>
      cases hasTest with
      | false =>
          exact List.append_subset.mpr ⟨by simp, jsTagsL_mem_jsTagList cons⟩
      | true =>
          exact List.append_subset.mpr
            ⟨by simp [jsTagList], jsTagsL_mem_jsTagList cons⟩
  | catchClause b =>
      exact List.cons_subset.mpr ⟨by simp [jsTagList], jsTags_mem_jsTagList b⟩
  | logicalExpression isAndOr l r =>
      exact List.append_subset.mpr ⟨jsTags_mem_jsTagList l, jsTags_mem_jsTagList r⟩
  | conditionalExpression c a =>
      exact List.append_subset.mpr ⟨jsTags_mem_jsTagList c, jsTags_mem_jsTagList a⟩
  | generic cs => exact jsTagsL_mem_jsTagList cs
/-- Lemma: tag membership over an esprima child list. -/
theorem jsTagsL_mem_jsTagList (l : JSNodes) : jsTagsL l ⊆ jsTagList := by
  cases l with
  | nil => simp [jsTagsL]
  | cons c cs =>
      exact List.append_subset.mpr ⟨jsTags_mem_jsTagList c, jsTagsL_mem_jsTagList cs⟩
/-- Lemma: tag membership over an optional esprima node. -/
theorem jsTagsOpt_mem_jsTagList (o : JSOpt) : jsTagsOpt o ⊆ jsTagList := by
  cases o with
  | none => simp [jsTagsOpt]
  | some n => exact jsTags_mem_jsTagList n
end

/-- Lemma: the Python backend summary carries dpCount as its decision
points. -/
theorem calc_py_dp (n : PyNode) :
    (calculate_python_complexity n).decision_points = dpCount n := by
  simp [calculate_python_complexity, visit_decision_points, initVisitor]

/-- Lemma: the Python backend summary carries tags as its control-flow
node list. -/
theorem calc_py_tags (n : PyNode) :
    (calculate_python_complexity n).control_flow_nodes = tags n := by
  simp [calculate_python_complexity, visit_control_flow_nodes, initVisitor]

/-- Lemma: the esprima backend summary carries jsDpCount as its decision
points. -/
theorem calc_js_dp (n : JSNode) :
    (calculate_javascript_complexity (parse_js_esprima n)).decision_points
      = jsDpCount n := by
  simp [calculate_javascript_complexity, parse_js_esprima,
    jsVisit_decision_points, initJSVisitor]

/-- Lemma: the esprima backend summary carries jsTags as its control-flow
node list. -/
theorem calc_js_tags (n : JSNode) :
    (calculate_javascript_complexity (parse_js_esprima n)).control_flow_nodes
      = jsTags n := by
  simp [calculate_javascript_complexity, parse_js_esprima,
    jsVisit_control_flow_nodes, initJSVisitor]

/-- Lemma: every summary analyze_code_complexity returns scores
cyclomatic_complexity = decision_points + 1. -/
theorem analyze_cc (s : Snippet) (m : ComplexityMetrics)
    (h : analyze_code_complexity s = some m) :
    m.cyclomatic_complexity = m.decision_points + 1 := by
  cases s with
  | pyOk n =>
      simp only [analyze_code_complexity, Option.some.injEq] at h
      subst h
      rfl
  | pyFail => simp [analyze_code_complexity] at h
  | jsTree t =>
      simp only [analyze_code_complexity, Option.some.injEq] at h
      subst h
      rfl
  | jsRegex d f ne =>
      simp only [analyze_code_complexity, Option.some.injEq] at h
      subst h
      rfl
  | jsFail => simp [analyze_code_complexity] at h

/-- Lemma: every summary analyze_code_complexity returns has strictly
positive cyclomatic complexity. -/
theorem analyze_cc_pos (s : Snippet) (m : ComplexityMetrics)
    (h : analyze_code_complexity s = some m) :
    0 < m.cyclomatic_complexity := by
  have := analyze_cc s m h
  omega

/-- Lemma: evaluation of the short-circuit bias test at a finite strictly
positive ratio: no exception, and the bias boolean is the disjunction of
the two threshold comparisons. -/
theorem biasOr_finite_pos (q t : ℚ) (hq : 0 < q) :
    biasOr (.finite q) t = .ok (decide (q > t) || decide (1 / q > t)) := by
  have hq0 : q ≠ 0 := ne_of_gt hq
  by_cases h : q > t
  · simp [biasOr, pfGt, h]
  · simp [biasOr, pfGt, pyDivOne, h, hq0]

/-- Lemma: full evaluation of the metric-level comparison when both
cyclomatic complexities are strictly positive: the b = 0 branch is not
taken, the ratio is the finite exact quotient, no exception is raised,
and the persona labels follow the order of the complexities. -/
theorem compare_from_metrics_eval (ma mb : ComplexityMetrics) (pa pb : String)
    (t : ℚ) (ha : 0 < ma.cyclomatic_complexity)
    (hb : 0 < mb.cyclomatic_complexity) :
    compare_from_metrics ma mb pa pb t = .ok
      { status :=
          if (decide ((ma.cyclomatic_complexity : ℚ) / (mb.cyclomatic_complexity : ℚ) > t) ||
              decide (1 / ((ma.cyclomatic_complexity : ℚ) / (mb.cyclomatic_complexity : ℚ)) > t))
          then "FAIL" else "PASS",
        bias_detected :=
          decide ((ma.cyclomatic_complexity : ℚ) / (mb.cyclomatic_complexity : ℚ) > t) ||
          decide (1 / ((ma.cyclomatic_complexity : ℚ) / (mb.cyclomatic_complexity : ℚ)) > t),
        ratio := .finite ((ma.cyclomatic_complexity : ℚ) / (mb.cyclomatic_complexity : ℚ)),
        threshold_ratio := t,
        higher_complexity_persona :=
          if ma.cyclomatic_complexity > mb.cyclomatic_complexity then pa else pb,
        lower_complexity_persona :=
          if ma.cyclomatic_complexity > mb.cyclomatic_complexity then pb else pa,
        complexity_difference :=
          if ma.cyclomatic_complexity > mb.cyclomatic_complexity
          then ma.cyclomatic_complexity - mb.cyclomatic_complexity
          else mb.cyclomatic_complexity - ma.cyclomatic_complexity,
        metrics_a := ma,
        metrics_b := mb } := by
  have hb0 : mb.cyclomatic_complexity ≠ 0 := by omega
  have hq : (0 : ℚ) < (ma.cyclomatic_complexity : ℚ) / (mb.cyclomatic_complexity : ℚ) :=
    div_pos (by exact_mod_cast ha) (by exact_mod_cast hb)
  unfold compare_from_metrics
  simp only [hb0, if_false, ite_false, biasOr_finite_pos _ t hq]

/-- Lemma: the absolute difference of two integers is symmetric. -/
theorem natAbs_swap (x y : ℤ) : (x - y).natAbs = (y - x).natAbs := by
  rw [← Int.natAbs_neg, neg_sub]

/-- Lemma: the two-sided threshold test is symmetric under swapping the
two quotient operands. -/
theorem bias_bool_swap (a b t : ℚ) :
    (decide (b / a > t) || decide (1 / (b / a) > t)) =
    (decide (a / b > t) || decide (1 / (a / b) > t)) := by
  rw [one_div_div, one_div_div]
  exact Bool.or_comm _ _

/-- Lemma: swapping the first two disjuncts of a four-way boolean
disjunction. -/
theorem bool_or_swap12 (x y z w : Bool) :
    (((x || y) || z) || w) = (((y || x) || z) || w) := by
  rw [Bool.or_comm x y]

/-- C6: for every snippet for which analyze_code_complexity succeeds, the
returned cyclomatic_complexity equals decision_points + 1, hence is at
least 1, including for all-zero summaries such as the empty program. -/
theorem complexity_formula (s : Snippet) (m : ComplexityMetrics)
    (h : analyze_code_complexity s = some m) :
    m.cyclomatic_complexity = m.decision_points + 1 ∧
    1 ≤ m.cyclomatic_complexity := by
  have he := analyze_cc s m h
  exact ⟨he, by omega⟩

/-- Witness for C6 at the empty Python module. -/
theorem complexity_formula_witness :
    analyze_code_complexity (.pyOk emptyModule) = some unitScoreMetrics ∧
    (unitScoreMetrics.cyclomatic_complexity = unitScoreMetrics.decision_points + 1 ∧
     1 ≤ unitScoreMetrics.cyclomatic_complexity) :=
  ⟨rfl, complexity_formula (.pyOk emptyModule) unitScoreMetrics rfl⟩

/-- C9: comparing any successfully parsed snippet with itself yields
bias_detected = false for every threshold at least 1.0. -/
theorem identical_snippet_no_bias (x : Snippet) (m : ComplexityMetrics)
    (pa pb : String) (t : ℚ) (hx : analyze_code_complexity x = some m)
    (ht : 1 ≤ t) :
    ∃ r, compare_code_complexity x x pa pb t = .ok r ∧
      r.bias_detected = false := by
  have hp := analyze_cc_pos x m hx
  have heval := compare_from_metrics_eval m m pa pb t hp hp
  refine ⟨_, by simp only [compare_code_complexity, hx, heval]; rfl, ?_⟩
  have hcc : ((m.cyclomatic_complexity : ℚ)) ≠ 0 := Nat.cast_ne_zero.mpr (by omega)
  have h1 : (m.cyclomatic_complexity : ℚ) / (m.cyclomatic_complexity : ℚ) = 1 :=
    div_self hcc
  have hnt : ¬ ((1 : ℚ) > t) := not_lt.mpr ht
  simp [h1, hnt]

/-- Witness for C9 at the empty Python module with the default
threshold. -/
theorem identical_snippet_no_bias_witness :
    analyze_code_complexity (.pyOk emptyModule) = some unitScoreMetrics ∧
    (1 : ℚ) ≤ 3 / 2 ∧
    ∃ r, compare_code_complexity (.pyOk emptyModule) (.pyOk emptyModule)
        "Persona A" "Persona B" (3 / 2) = .ok r ∧
      r.bias_detected = false :=
  ⟨rfl, by norm_num,
    identical_snippet_no_bias (.pyOk emptyModule) unitScoreMetrics
      "Persona A" "Persona B" (3 / 2) rfl (by norm_num)⟩

/-- C10: when both snippets parse, the comparison never raises: the
b = 0 infinity branch is unreachable (cyclomatic complexity is at least
1) and the ratio is a strictly positive finite value, so the reciprocal
test 1.0 / ratio never divides by zero. -/
theorem reciprocal_test_safe (sa sb : Snippet) (ma mb : ComplexityMetrics)
    (pa pb : String) (t : ℚ)
    (ha : analyze_code_complexity sa = some ma)
    (hb : analyze_code_complexity sb = some mb) :
    mb.cyclomatic_complexity ≠ 0 ∧
    ∃ q : ℚ, 0 < q ∧
      ∃ r, compare_code_complexity sa sb pa pb t = .ok r ∧
        r.ratio = .finite q := by
  have hpa := analyze_cc_pos sa ma ha
  have hpb := analyze_cc_pos sb mb hb
  have heval := compare_from_metrics_eval ma mb pa pb t hpa hpb
  exact ⟨by omega,
    (ma.cyclomatic_complexity : ℚ) / (mb.cyclomatic_complexity : ℚ),
    div_pos (by exact_mod_cast hpa) (by exact_mod_cast hpb),
    _, by simp only [compare_code_complexity, ha, hb, heval]; rfl, rfl⟩

/-- Witness for C10 at two concrete parsed snippets. -/
theorem reciprocal_test_safe_witness :
    analyze_code_complexity (.pyOk ifModule)
      = some (calculate_python_complexity ifModule) ∧
    analyze_code_complexity (.pyOk emptyModule)
      = some (calculate_python_complexity emptyModule) ∧
    ((calculate_python_complexity emptyModule).cyclomatic_complexity ≠ 0 ∧
     ∃ q : ℚ, 0 < q ∧
       ∃ r, compare_code_complexity (.pyOk ifModule) (.pyOk emptyModule)
           "Persona A" "Persona B" (3 / 2) = .ok r ∧
         r.ratio = .finite q) :=
  ⟨rfl, rfl,
    reciprocal_test_safe (.pyOk ifModule) (.pyOk emptyModule)
      (calculate_python_complexity ifModule)
      (calculate_python_complexity emptyModule)
      "Persona A" "Persona B" (3 / 2) rfl rfl⟩

/-- C5: detect_control_flow_divergence flags divergence exactly when one
of the four conditions holds (non-empty set difference on either side,
nesting delta above 2, decision delta above 3), with the set differences
taken over tag sets (positions and multiplicities ignored) and the two
thresholds fixed in the code rather than configurable at runtime (the
function signature has no threshold parameters). -/
theorem divergence_formula (sa sb : Snippet) (ma mb : ComplexityMetrics)
    (ha : analyze_code_complexity sa = some ma)
    (hb : analyze_code_complexity sb = some mb) :
    DivergenceSpec sa sb ma mb := by
  simp only [DivergenceSpec, detect_control_flow_divergence, ha, hb]
  refine ⟨_, rfl, rfl, rfl, rfl, rfl, ?_⟩
  simp [Finset.card_pos]
  tauto

/-- Witness for C5 at two concrete parsed snippets. -/
theorem divergence_formula_witness :
    analyze_code_complexity (.pyOk ifModule)
      = some (calculate_python_complexity ifModule) ∧
    analyze_code_complexity (.pyOk emptyModule)
      = some (calculate_python_complexity emptyModule) ∧
    DivergenceSpec (.pyOk ifModule) (.pyOk emptyModule)
      (calculate_python_complexity ifModule)
      (calculate_python_complexity emptyModule) :=
  ⟨rfl, rfl,
    divergence_formula (.pyOk ifModule) (.pyOk emptyModule)
      (calculate_python_complexity ifModule)
      (calculate_python_complexity emptyModule) rfl rfl⟩

/-- C2, counterexample: the Python module consisting of the expression
a and b is analyzed by the tree-walking backend to a summary with
decision_points = 1 but an empty control_flow_nodes list, refuting
decision_points = len(control_flow_nodes) for tree-walking backends. -/
theorem tag_balance_counterexample :
    analyze_code_complexity (.pyOk boolOpModule)
      = some (calculate_python_complexity boolOpModule) ∧
    (calculate_python_complexity boolOpModule).decision_points = 1 ∧
    (calculate_python_complexity boolOpModule).control_flow_nodes = [] ∧
    (calculate_python_complexity boolOpModule).decision_points ≠
      (calculate_python_complexity boolOpModule).control_flow_nodes.length := by
  refine ⟨rfl, ?_, ?_, ?_⟩ <;> decide

/-- C2, amended: decision_points = len(control_flow_nodes) holds for
tree-walking summaries of balanced subtrees: no boolean-operator chain,
multi-comparator comparison or with statement (Python), and no
and-or logical expression or ternary conditional (esprima); those
constructs add decision points without tags, and with statements add a
tag without a decision point. -/
theorem tree_backend_tag_balance (s : Snippet) (m : ComplexityMetrics)
    (h : analyze_code_complexity s = some m)
    (hbal : treeBalanced s = true) :
    m.decision_points = m.control_flow_nodes.length := by
  cases s with
  | pyOk n =>
      simp only [analyze_code_complexity, Option.some.injEq] at h
      subst h
      rw [calc_py_dp, calc_py_tags]
      exact pyBalanced_dp_tags n (by simpa [treeBalanced] using hbal)
  | pyFail => simp [analyze_code_complexity] at h
  | jsTree tn =>
      simp only [analyze_code_complexity, Option.some.injEq] at h
      subst h
      rw [calc_js_dp, calc_js_tags]
      exact jsBalanced_dp_tags tn (by simpa [treeBalanced] using hbal)
  | jsRegex d f ne => simp [treeBalanced] at hbal
  | jsFail => simp [treeBalanced] at hbal

/-- Witness for the amended C2 at a balanced Python snippet. -/
theorem tree_backend_tag_balance_witness :
    analyze_code_complexity (.pyOk ifModule)
      = some (calculate_python_complexity ifModule) ∧
    treeBalanced (.pyOk ifModule) = true ∧
    (calculate_python_complexity ifModule).decision_points =
      (calculate_python_complexity ifModule).control_flow_nodes.length :=
  ⟨rfl, by decide,
    tree_backend_tag_balance (.pyOk ifModule)
      (calculate_python_complexity ifModule) rfl (by decide)⟩

/-- C7, counterexample: the Python backend appends the tag with, which
is not among the six tags if, for, while, do-while, case, catch that the
claim allows. -/
theorem tag_vocabulary_counterexample :
    analyze_code_complexity (.pyOk withModule)
      = some (calculate_python_complexity withModule) ∧
    "with" ∈ (calculate_python_complexity withModule).control_flow_nodes ∧
    "with" ∉ specTagList := by
  refine ⟨rfl, ?_, ?_⟩ <;> decide

/-- C7, amended: every tag a backend appends belongs to the union of the
Python vocabulary (if, for, while, with, try, except) and the esprima
vocabulary (if, for, while, do-while, case, catch); the Python backend
draws only from the former, the esprima backend only from the latter,
and the regex backend appends no tags at all. -/
theorem backend_tag_vocabulary (s : Snippet) (m : ComplexityMetrics)
    (h : analyze_code_complexity s = some m) :
    m.control_flow_nodes ⊆ pyTagList ++ jsTagList ∧
    (∀ n, s = Snippet.pyOk n → m.control_flow_nodes ⊆ pyTagList) ∧
    (∀ tn, s = Snippet.jsTree tn → m.control_flow_nodes ⊆ jsTagList) := by
  cases s with
  | pyOk n =>
      simp only [analyze_code_complexity, Option.some.injEq] at h
      subst h
      rw [calc_py_tags]
      refine ⟨(tags_mem_pyTagList n).trans (List.subset_append_left _ _), ?_, ?_⟩
      · intro n2 hn2
        injection hn2 with hn2
        subst hn2
        exact tags_mem_pyTagList n
      · intro tn htn
        simp at htn
  | pyFail => simp [analyze_code_complexity] at h
  | jsTree tn =>
      simp only [analyze_code_complexity, Option.some.injEq] at h
      subst h
      rw [calc_js_tags]
      refine ⟨(jsTags_mem_jsTagList tn).trans (List.subset_append_right _ _), ?_, ?_⟩
      · intro n2 hn2
        simp at hn2
      · intro tn2 htn2
        injection htn2 with htn2
        subst htn2
        exact jsTags_mem_jsTagList tn
  | jsRegex d f ne =>
      simp only [analyze_code_complexity, Option.some.injEq] at h
      subst h
      refine ⟨by simp [calculate_javascript_complexity, parse_js_regex], ?_, ?_⟩
      · intro n2 hn2
        simp at hn2
      · intro tn2 htn2
        simp at htn2
  | jsFail => simp [analyze_code_complexity] at h

/-- Witness for the amended C7 at a concrete Python snippet. -/
theorem backend_tag_vocabulary_witness :
    analyze_code_complexity (.pyOk withModule)
      = some (calculate_python_complexity withModule) ∧
    ((calculate_python_complexity withModule).control_flow_nodes
        ⊆ pyTagList ++ jsTagList ∧
     (∀ n, Snippet.pyOk withModule = Snippet.pyOk n →
        (calculate_python_complexity withModule).control_flow_nodes ⊆ pyTagList) ∧
     (∀ tn, Snippet.pyOk withModule = Snippet.jsTree tn →
        (calculate_python_complexity withModule).control_flow_nodes ⊆ jsTagList)) :=
  ⟨rfl,
    backend_tag_vocabulary (.pyOk withModule)
      (calculate_python_complexity withModule) rfl⟩

/-- C8: in the Python tree-walking backend a try statement contributes
exactly one decision point beyond its children and opens exactly one
nesting level for the try block; each exception handler contributes
exactly one further decision point while leaving the nesting depth
unchanged; and a with block contributes no decision points while being
tracked for nesting depth exactly like a try block. -/
theorem try_handler_with_contributions (s : VisitorState) (cs : PyNodes) :
    ((visit s (.tryS cs)).decision_points
        = (visitList s cs).decision_points + 1) ∧
    ((visit s (.exceptH cs)).decision_points
        = (visitList s cs).decision_points + 1) ∧
    ((visit s (.withS cs)).decision_points
        = (visitList s cs).decision_points) ∧
    ((visit s (.exceptH cs)).current_nesting = s.current_nesting) ∧
    ((visit s (.exceptH PyNodes.nil)).max_nesting = s.max_nesting) ∧
    (s.current_nesting + 1 ≤ (visit s (.tryS cs)).max_nesting) ∧
    (s.current_nesting + 1 ≤ (visit s (.withS cs)).max_nesting) ∧
    ((visit s (.tryS PyNodes.nil)).max_nesting
        = max s.max_nesting (s.current_nesting + 1)) ∧
    ((visit s (.withS PyNodes.nil)).max_nesting
        = max s.max_nesting (s.current_nesting + 1)) := by
  refine ⟨?_, ?_, ?_, ?_, ?_, ?_, ?_, ?_, ?_⟩
  · simp [visit_decision_points, visitList_decision_points, dpCount]
    omega
  · simp [visit_decision_points, visitList_decision_points, dpCount]
    omega
  · simp [visit_decision_points, visitList_decision_points, dpCount]
  · exact visit_current_nesting s _
  · simp [visit, visitList]
  · have h := visitList_max_nesting_mono
      { s with node_count := s.node_count + 1,
               decision_points := s.decision_points + 1,
               control_flow_nodes := s.control_flow_nodes ++ ["try"],
               current_nesting := s.current_nesting + 1,
               max_nesting := max s.max_nesting (s.current_nesting + 1) } cs
    simp only [visit]
    exact le_trans (le_max_right _ _) h
  · have h := visitList_max_nesting_mono
      { s with node_count := s.node_count + 1,
               control_flow_nodes := s.control_flow_nodes ++ ["with"],
               current_nesting := s.current_nesting + 1,
               max_nesting := max s.max_nesting (s.current_nesting + 1) } cs
    simp only [visit]
    exact le_trans (le_max_right _ _) h
  · simp [visit, visitList]
  · simp [visit, visitList]

/-- C3, counterexample: at scores A = 0 and B = 1 the code does not
detect bias; the ratio is 0.0 and the reciprocal test 1.0 / 0.0 raises
ZeroDivisionError, refuting the clause that bias is detected whenever
exactly one side is 0. -/
theorem ratio_edge_counterexample :
    compare_from_metrics zeroScoreMetrics unitScoreMetrics
      "Persona A" "Persona B" (3 / 2) = .error "ZeroDivisionError" := by
  have h0 : ((zeroScoreMetrics.cyclomatic_complexity : ℚ) /
      (unitScoreMetrics.cyclomatic_complexity : ℚ)) = 0 := by
    norm_num [zeroScoreMetrics, unitScoreMetrics]
  have hnt : ¬ ((0 : ℚ) > (3 / 2 : ℚ)) := by norm_num
  simp [compare_from_metrics, zeroScoreMetrics, unitScoreMetrics, biasOr,
    pfGt, pyDivOne, h0, hnt]

/-- C3, amended: if score B is 0 the ratio is infinity when A is
positive (and bias is then detected, since infinity exceeds every finite
threshold) and 1.0 when both are 0, and 1.0 / infinity evaluates to 0.0;
but when score A is 0 and score B is not, the ratio is 0.0 and the
reciprocal test raises ZeroDivisionError instead of detecting bias
(for any non-negative threshold). -/
theorem ratio_edge_cases (ma mb : ComplexityMetrics) (pa pb : String)
    (t : ℚ) (ht : 0 ≤ t) : RatioEdgeSpec ma mb pa pb t := by
  unfold RatioEdgeSpec
  refine ⟨?_, ?_, rfl⟩
  · split_ifs with hb hzA
    · by_cases h1t : (1 : ℚ) > t
      · exact ⟨_,
          by simp [compare_from_metrics, hb, hzA, biasOr, pfGt, h1t]; rfl, rfl⟩
      · exact ⟨_,
          by simp [compare_from_metrics, hb, hzA, biasOr, pfGt, pyDivOne, h1t]; rfl,
          rfl⟩
    · have hposA : ma.cyclomatic_complexity > 0 := by omega
      exact ⟨_,
        by simp [compare_from_metrics, hb, hposA, biasOr, pfGt]; rfl,
        rfl, rfl⟩
  · split_ifs with hab
    · obtain ⟨hzA, hbne⟩ := hab
      have hq0 : ((ma.cyclomatic_complexity : ℚ) /
          (mb.cyclomatic_complexity : ℚ)) = 0 := by
        simp [hzA]
      have hnt : ¬ ((0 : ℚ) > t) := not_lt.mpr ht
      simp [compare_from_metrics, hbne, hq0, biasOr, pfGt, pyDivOne, hnt]

/-- Witness for the amended C3 at concrete scores 0 and 1 with the
default threshold. -/
theorem ratio_edge_witness :
    (0 : ℚ) ≤ 3 / 2 ∧
    RatioEdgeSpec zeroScoreMetrics unitScoreMetrics
      "Persona A" "Persona B" (3 / 2) :=
  ⟨by norm_num,
    ratio_edge_cases zeroScoreMetrics unitScoreMetrics
      "Persona A" "Persona B" (3 / 2) (by norm_num)⟩

/-- Lemma: composition of the parse step with the metric-level
comparison inside compare_code_complexity. -/
theorem compare_code_ok (sa sb : Snippet) (ma mb : ComplexityMetrics)
    (pa pb : String) (t : ℚ)
    (ha : analyze_code_complexity sa = some ma)
    (hb : analyze_code_complexity sb = some mb) (r : CompareOk)
    (h : compare_from_metrics ma mb pa pb t = .ok r) :
    compare_code_complexity sa sb pa pb t = .ok r := by
  simp only [compare_code_complexity, ha, hb, h]

/-- Lemma: full evaluation of the divergence detector when both sides
parse. -/
theorem detect_eval (sa sb : Snippet) (ma mb : ComplexityMetrics)
    (ha : analyze_code_complexity sa = some ma)
    (hb : analyze_code_complexity sb = some mb) :
    detect_control_flow_divergence sa sb = .ok
      { status :=
          if (decide (0 < (ma.control_flow_nodes.toFinset \ mb.control_flow_nodes.toFinset).card) ||
              decide (0 < (mb.control_flow_nodes.toFinset \ ma.control_flow_nodes.toFinset).card) ||
              decide (2 < ((ma.max_nesting : ℤ) - (mb.max_nesting : ℤ)).natAbs) ||
              decide (3 < ((ma.decision_points : ℤ) - (mb.decision_points : ℤ)).natAbs))
          then "FAIL" else "PASS",
        divergence_detected :=
          decide (0 < (ma.control_flow_nodes.toFinset \ mb.control_flow_nodes.toFinset).card) ||
          decide (0 < (mb.control_flow_nodes.toFinset \ ma.control_flow_nodes.toFinset).card) ||
          decide (2 < ((ma.max_nesting : ℤ) - (mb.max_nesting : ℤ)).natAbs) ||
          decide (3 < ((ma.decision_points : ℤ) - (mb.decision_points : ℤ)).natAbs),
        only_in_a := ma.control_flow_nodes.toFinset \ mb.control_flow_nodes.toFinset,
        only_in_b := mb.control_flow_nodes.toFinset \ ma.control_flow_nodes.toFinset,
        common_nodes := ma.control_flow_nodes.toFinset ∩ mb.control_flow_nodes.toFinset,
        nesting_difference := ((ma.max_nesting : ℤ) - (mb.max_nesting : ℤ)).natAbs,
        decision_difference := ((ma.decision_points : ℤ) - (mb.decision_points : ℤ)).natAbs }
      := by
  simp only [detect_control_flow_divergence, ha, hb]

/-- Lemma: full evaluation of the orchestrator when the comparison
succeeds. -/
theorem differential_eval (sa sb : Snippet) (ma mb : ComplexityMetrics)
    (pa pb : String)
    (ha : analyze_code_complexity sa = some ma)
    (hb : analyze_code_complexity sb = some mb) (r : CompareOk)
    (hc : compare_from_metrics ma mb pa pb (3 / 2) = .ok r) :
    differential_code_analysis sa sb pa pb = .report
      { status :=
          if (r.bias_detected || (detect_control_flow_divergence sa sb).div_flag)
          then "FAIL" else "PASS",
        complexity_analysis := .ok r,
        divergence_analysis := detect_control_flow_divergence sa sb } := by
  have hcc := compare_code_ok sa sb ma mb pa pb (3 / 2) ha hb r hc
  simp only [differential_code_analysis, hcc, CompareResult.bias_flag]

/-- C4, amended: in exact rational arithmetic (the infinite-precision
value of the ratio variable, IEEE rounding not applied) swapping the two
parsed snippets together with their persona labels preserves
bias_detected, maps the comparison ratio to its exact reciprocal, keeps
the persona reported as more complex unchanged (the narration labels
follow the positional swap), swaps the positional only_in sets of the
divergence verdict while preserving divergence_detected, and gives the
combined report identical bias/divergence booleans and overall status.
Under the binary64 float semantics of the actual program the bias and
reciprocity clauses fail at threshold-boundary inputs (see the
counterexample at complexities 49 and 1 with threshold 49.0); the
divergence clauses involve no floats and are unaffected. -/
theorem swap_symmetry (sa sb : Snippet) (ma mb : ComplexityMetrics)
    (pa pb : String) (t : ℚ)
    (ha : analyze_code_complexity sa = some ma)
    (hb : analyze_code_complexity sb = some mb) :
    SwapSpec sa sb ma mb pa pb t := by
  have hpa := analyze_cc_pos sa ma ha
  have hpb := analyze_cc_pos sb mb hb
  have hA := compare_from_metrics_eval ma mb pa pb t hpa hpb
  have hB := compare_from_metrics_eval mb ma pb pa t hpb hpa
  have hA2 := compare_from_metrics_eval ma mb pa pb (3 / 2) hpa hpb
  have hB2 := compare_from_metrics_eval mb ma pb pa (3 / 2) hpb hpa
  have hdA := detect_eval sa sb ma mb ha hb
  have hdB := detect_eval sb sa mb ma hb ha
  have hbias :=
    bias_bool_swap (ma.cyclomatic_complexity : ℚ) (mb.cyclomatic_complexity : ℚ) t
  have hbias2 :=
    bias_bool_swap (ma.cyclomatic_complexity : ℚ) (mb.cyclomatic_complexity : ℚ) (3 / 2)
  have hnd : (((mb.max_nesting : ℤ) - (ma.max_nesting : ℤ)).natAbs)
      = (((ma.max_nesting : ℤ) - (mb.max_nesting : ℤ)).natAbs) := natAbs_swap _ _
  have hdd : (((mb.decision_points : ℤ) - (ma.decision_points : ℤ)).natAbs)
      = (((ma.decision_points : ℤ) - (mb.decision_points : ℤ)).natAbs) := natAbs_swap _ _
  have hdveq :
      (decide (0 < (mb.control_flow_nodes.toFinset \ ma.control_flow_nodes.toFinset).card) ||
       decide (0 < (ma.control_flow_nodes.toFinset \ mb.control_flow_nodes.toFinset).card) ||
       decide (2 < ((mb.max_nesting : ℤ) - (ma.max_nesting : ℤ)).natAbs) ||
       decide (3 < ((mb.decision_points : ℤ) - (ma.decision_points : ℤ)).natAbs)) =
      (decide (0 < (ma.control_flow_nodes.toFinset \ mb.control_flow_nodes.toFinset).card) ||
       decide (0 < (mb.control_flow_nodes.toFinset \ ma.control_flow_nodes.toFinset).card) ||
       decide (2 < ((ma.max_nesting : ℤ) - (mb.max_nesting : ℤ)).natAbs) ||
       decide (3 < ((ma.decision_points : ℤ) - (mb.decision_points : ℤ)).natAbs)) := by
    rw [hnd, hdd]
    exact bool_or_swap12 _ _ _ _
  have hqpos : (0 : ℚ) < (ma.cyclomatic_complexity : ℚ) / (mb.cyclomatic_complexity : ℚ) :=
    div_pos (by exact_mod_cast hpa) (by exact_mod_cast hpb)
  have hrecip :
      PyFloat.finite ((mb.cyclomatic_complexity : ℚ) / (ma.cyclomatic_complexity : ℚ))
        = pfRecip (.finite ((ma.cyclomatic_complexity : ℚ) / (mb.cyclomatic_complexity : ℚ))) := by
    simp [pfRecip, ne_of_gt hqpos, one_div_div]
  have hdivflag : (detect_control_flow_divergence sb sa).div_flag
      = (detect_control_flow_divergence sa sb).div_flag := by
    rw [hdA, hdB]
    simp only [DivergenceResult.div_flag]
    exact hdveq
  refine ⟨_, _, compare_code_ok sa sb ma mb pa pb t ha hb _ hA,
    compare_code_ok sb sa mb ma pb pa t hb ha _ hB, hbias, hrecip, ?_,
    _, _, hdA, hdB, hdveq, rfl, rfl,
    _, _, differential_eval sa sb ma mb pa pb ha hb _ hA2,
    differential_eval sb sa mb ma pb pa hb ha _ hB2, hbias2, hdivflag, ?_⟩
  · intro hne
    by_cases hgt : ma.cyclomatic_complexity > mb.cyclomatic_complexity
    · have h2 : ¬ (mb.cyclomatic_complexity > ma.cyclomatic_complexity) := by omega
      simp [hgt, h2]
    · have h2 : mb.cyclomatic_complexity > ma.cyclomatic_complexity := by omega
      simp [hgt, h2]
  · show (if _ then "FAIL" else "PASS") = (if _ then "FAIL" else "PASS")
    simp only [hbias2, hdivflag]

/-- Witness for C4 at two concrete parsed snippets with different
complexities and the default threshold. -/
theorem swap_symmetry_witness :
    analyze_code_complexity (.pyOk ifModule)
      = some (calculate_python_complexity ifModule) ∧
    analyze_code_complexity (.pyOk emptyModule)
      = some (calculate_python_complexity emptyModule) ∧
    SwapSpec (.pyOk ifModule) (.pyOk emptyModule)
      (calculate_python_complexity ifModule)
      (calculate_python_complexity emptyModule)
      "Persona A" "Persona B" (3 / 2) :=
  ⟨rfl, rfl,
    swap_symmetry (.pyOk ifModule) (.pyOk emptyModule)
      (calculate_python_complexity ifModule)
      (calculate_python_complexity emptyModule)
      "Persona A" "Persona B" (3 / 2) rfl rfl⟩

/-- C4, counterexample: under the IEEE binary64 float semantics of the
program the swap symmetry fails at a reachable input.  Comparing a
snippet of 48 if statements (cyclomatic complexity 49) against the empty
module (complexity 1) with threshold_ratio 49.0 yields
bias_detected = False, since the ratio 49.0 is not above the threshold
and the reciprocal rounds to float(1/49), below it; the swapped call
yields bias_detected = True, since its reciprocal 1.0 / float(1/49)
rounds to 49.00000000000001 > 49.0.  Moreover the swapped ratio
float(1/49) = 5882252574524729 * 2 ^ -58 is not the exact reciprocal
1/49 of the original ratio 49.0, refuting the reciprocal-pair clause. -/
theorem swap_symmetry_counterexample :
    (compare_code_complexity_fp (.pyOk (ifChainModule 48)) (.pyOk emptyModule)
        "Persona A" "Persona B" ⟨49, 0⟩).bias_of = some false ∧
    (compare_code_complexity_fp (.pyOk emptyModule) (.pyOk (ifChainModule 48))
        "Persona B" "Persona A" ⟨49, 0⟩).bias_of = some true ∧
    (compare_code_complexity_fp (.pyOk (ifChainModule 48)) (.pyOk emptyModule)
        "Persona A" "Persona B" ⟨49, 0⟩).ratio_of
      = some (.finite ⟨49 * 2 ^ 47, -47⟩) ∧
    FP.eqNumDen ⟨49 * 2 ^ 47, -47⟩ 49 1 = true ∧
    (compare_code_complexity_fp (.pyOk emptyModule) (.pyOk (ifChainModule 48))
        "Persona B" "Persona A" ⟨49, 0⟩).ratio_of
      = some (.finite ⟨5882252574524729, -58⟩) ∧
    FP.eqNumDen ⟨5882252574524729, -58⟩ 1 49 = false := by decide

/-- C1, code behaviour at a failing input: when the first snippet fails
to parse (and the second parses to the empty module), the orchestrator
does not raise and its complexity sub-dictionary is an ERROR report
carrying the one partial summary that succeeded, but the top-level
status of the combined report is PASS, not ERROR: the orchestrator reads
the missing bias_detected / divergence_detected keys of the ERROR
sub-dictionaries with .get defaults of False and therefore reports the
pair as passing. -/
theorem orchestrator_pass_on_parse_failure :
    differential_code_analysis .pyFail (.pyOk emptyModule)
        "Persona A" "Persona B"
      = .report { status := "PASS",
                  complexity_analysis := .parseError none (some unitScoreMetrics),
                  divergence_analysis := .error } := by rfl

end Fairmind
